import Mathlib

/-!
Verification development for the NF-e audit rule engine.

The audit engine (`src/lib/audit`) turns a parsed fiscal document tree into a
report of findings.  This file gives a shallow embedding of the engine:

* pure helper functions (`onlyDigits`, `round2`, the check-digit validators,
  the CFOP classifiers) are translated function-by-function from
  `utils.ts`, `br.ts` and `br-ops.ts`;
* the rule pipeline `auditXml` of `index.ts` is translated rule group by rule
  group over a typed intermediate representation `ParsedNFe` of the parsed
  document (item/total leaf values are represented after `toNumber`
  normalisation as `Option ℚ`; exact rationals stand for the decimal
  quantities that the JavaScript floats, corrected by `round2`'s epsilon,
  are intended to denote);
* XML text parsing itself is performed by the external library
  `fast-xml-parser`; the report-returning outcomes at the `auditXml` call
  site (envelope validation failure, a thrown parse error, a `ParsedNFe`
  value) are abstracted by the inductive `AuditInput`.  The source is not
  total: the dotted-path helper `get` throws a TypeError on truthy primitive
  intermediates of the raw tree, an exception that escapes `auditXml`; that
  path is modelled on the raw values by `JVal` / `get` / `itemLoopReads`.
-/

namespace NFe

/-! ## String helpers (utils.ts / br.ts)

JavaScript strings are modelled by `String` / `List Char`; `replace(/\D/g,'')`
becomes a digit filter, `trim()` a whitespace trim on both ends. -/

/-- Numeric value of a digit character. -/
def charDigit (c : Char) : Nat := c.toNat - 48

/-- `String(v).replace(/\D/g, '')` as a list of digit characters. -/
def onlyDigitsL (s : String) : List Char := s.data.filter Char.isDigit

/-- `onlyDigits` of br.ts, converted to numeric digits. -/
def onlyDigits (s : String) : List Nat := (onlyDigitsL s).map charDigit

/-- The regexes `^(\d)\1{10}$` / `^(\d)\1{13}$` / `^(\d)\1{7}$`, applied to an
all-digit string whose length has already been checked: all digits equal. -/
def repAllN : List Nat → Bool
  | [] => false
  | d :: rest => rest.all (fun x => x == d)

/-- JavaScript `String.prototype.trim`. -/
def trimL (cs : List Char) : List Char :=
  ((cs.dropWhile Char.isWhitespace).reverse.dropWhile Char.isWhitespace).reverse

/-- Truthiness of a JS string held in an option: `undefined`/`null` and the
empty string are falsy. -/
def optTruthy : Option String → Bool
  | none => false
  | some s => !(s == "")

/-! ## Monetary rounding (utils.ts `round2`)

`round2(n) = Math.round((n + Number.EPSILON) * 100) / 100`.  The epsilon term
compensates binary floating-point representation error; on the exact rationals
that the floats denote, the intended function is rounding to 2 decimals with
`Math.round x = ⌊x + 1/2⌋`. -/

def round2 (q : ℚ) : ℚ := ((⌊q * 100 + 1 / 2⌋ : ℤ) : ℚ) / 100

/-! ## Tax identifier validators (br.ts) -/

/-- The check-digit kernel of `isValidCPF`: weighted sum of the first
`baseLen` digits with weight `baseLen + 1 - i` at index `i`, then the mod-11
rule.  `baseLen = 9` is the source's `calc(9)` (weights 10..2); `baseLen = 10`
is the source's inlined second loop (weights 11..2). -/
def cpfCheckDigit (cpf : List Nat) (baseLen : Nat) : Nat :=
  let sum := (List.range baseLen).foldl (fun acc i => acc + cpf.getD i 0 * (baseLen + 1 - i)) 0
  let m := sum % 11
  if m < 2 then 0 else 11 - m

/-- `isValidCPF` of br.ts. -/
def isValidCPF (s : String) : Bool :=
  let cpf := onlyDigits s
  if cpf.length ≠ 11 then false
  else if repAllN cpf then false
  else
    let d1 := cpfCheckDigit cpf 9
    let d2 := cpfCheckDigit cpf 10
    cpf.getD 9 0 == d1 && cpf.getD 10 0 == d2

/-- The `calcDigit` closure of `isValidCNPJ`. -/
def cnpjCalcDigit (base : List Nat) (weights : List Nat) : Nat :=
  let sum := (List.range weights.length).foldl
    (fun acc i => acc + base.getD i 0 * weights.getD i 0) 0
  let m := sum % 11
  if m < 2 then 0 else 11 - m

/-- `isValidCNPJ` of br.ts. -/
def isValidCNPJ (s : String) : Bool :=
  let cnpj := onlyDigits s
  if cnpj.length ≠ 14 then false
  else if repAllN cnpj then false
  else
    let weights1 := [5, 4, 3, 2, 9, 8, 7, 6, 5, 4, 3, 2]
    let weights2 := [6, 5, 4, 3, 2, 9, 8, 7, 6, 5, 4, 3, 2]
    let base12 := cnpj.take 12
    let d1 := cnpjCalcDigit base12 weights1
    let base13 := base12 ++ [d1]
    let d2 := cnpjCalcDigit base13 weights2
    cnpj.getD 12 0 == d1 && cnpj.getD 13 0 == d2

/-- `isValidCEP` of br-ops.ts: exactly 8 digits, not all identical. -/
def isValidCEP (s : String) : Bool :=
  let cep := onlyDigits s
  if cep.length ≠ 8 then false
  else if repAllN cep then false
  else true

/-! ## CFOP classifiers (br-ops.ts) -/

/-- `first2CFOP`: the regex `^(\d{2})` on the trimmed string — the first two
characters when both are digits, else nothing. -/
def first2CFOP (s : String) : List Char :=
  match trimL s.data with
  | a :: b :: _ => if a.isDigit && b.isDigit then [a, b] else []
  | _ => []

/-- `isInternalCfop`: first CFOP digit 1 or 5. -/
def isInternalCfop (s : String) : Bool :=
  match first2CFOP s with
  | a :: _ => a == '1' || a == '5'
  | [] => false

/-- `isInterstateCfop`: first CFOP digit 2 or 6. -/
def isInterstateCfop (s : String) : Bool :=
  match first2CFOP s with
  | a :: _ => a == '2' || a == '6'
  | [] => false

/-! ## Access-key check digit (utils.ts `calcNfeKeyDV`) -/

/-- The cycling weight vector of `calcNfeKeyDV`. -/
def nfeKeyWeights : List Nat := [2, 3, 4, 5, 6, 7, 8, 9]

/-- `Number(c)` for one character of the key: defined exactly on digit
characters.  (In the source the corresponding `Number.isFinite` test guards
the loop; the characters always come from a `\D`-filtered string.) -/
def charNum (c : Char) : Option Nat :=
  if c.isDigit then some (c.toNat - 48) else none

/-- The right-to-left accumulation loop of `calcNfeKeyDV`: the input list is
the key reversed, `wIdx` the current index into the cycling weights; `none`
when some character is not numeric. -/
def dvSumLoop : Nat → List Char → Option Nat
  | _, [] => some 0
  | wIdx, c :: rest =>
    match charNum c with
    | none => none
    | some d =>
      match dvSumLoop (wIdx + 1) rest with
      | none => none
      | some s => some (d * nfeKeyWeights.getD (wIdx % 8) 0 + s)

/-- `calcNfeKeyDV` of utils.ts, over the character list of the input. -/
def calcNfeKeyDVL (cs : List Char) : Option Nat :=
  let digits := cs.filter Char.isDigit
  let key43 := if digits.length = 44 then digits.take 43 else digits
  if key43.length ≠ 43 then none
  else
    match dvSumLoop 0 key43.reverse with
    | none => none
    | some sum =>
      let m := sum % 11
      let dv := 11 - m
      if dv = 10 ∨ dv = 11 then some 0 else some dv

/-- `calcNfeKeyDV` of utils.ts. -/
def calcNfeKeyDV (s : String) : Option Nat := calcNfeKeyDVL s.data

/-- JavaScript `Math.abs`. -/
def jsAbs (q : ℚ) : ℚ := if q < 0 then -q else q

/-- `String(x).trim().toUpperCase()` (ASCII upper-casing; UF codes are ASCII). -/
def upperTrim (s : String) : String := String.mk ((trimL s.data).map Char.toUpper)

/-! ## Data model (types.ts / parse.ts)

`ParsedNFe` is the typed intermediate representation of `parseNFeXml`'s
result: every leaf consumed by the audit becomes a named optional attribute.
Monetary/numeric leaves are stored after `toNumber` normalisation as
`Option ℚ` (`none` = absent or non-numeric). -/

inductive Severity where
  | error
  | warning
  | info
deriving DecidableEq

structure Finding where
  severity : Severity
  code : String
  title : String
  message : String
  path : Option String
  hint : Option String
deriving DecidableEq

structure Summary where
  errors : Nat
  warnings : Nat
  infos : Nat
deriving DecidableEq

structure TotalsMeta where
  vProd : Option ℚ
  vDesc : Option ℚ
  vFrete : Option ℚ
  vSeg : Option ℚ
  vOutro : Option ℚ
  vNF : Option ℚ
deriving DecidableEq

structure SumsMeta where
  vProd : ℚ
  vDesc : ℚ
  vFrete : ℚ
  vSeg : ℚ
  vOutro : ℚ
deriving DecidableEq

structure Meta where
  itemsCount : Nat
  hasNfeProc : Bool
  accessKey : Option String
  totals : Option TotalsMeta
  sums : Option SumsMeta
deriving DecidableEq

structure AuditResult where
  ok : Bool
  meta : Meta
  summary : Summary
  findings : List Finding
deriving DecidableEq

/-- One item (`det` entry): the leaves the audit reads from `prod`. -/
structure Item where
  vProd : Option ℚ
  vDesc : Option ℚ
  vFrete : Option ℚ
  vSeg : Option ℚ
  vOutro : Option ℚ
  qCom : Option ℚ
  vUnCom : Option ℚ
  cProd : String
  CFOP : Option String
  NCM : Option String
deriving DecidableEq

/-- The `total.ICMSTot` block, leaves after `toNumber`. -/
structure Totals where
  vProd : Option ℚ
  vDesc : Option ℚ
  vFrete : Option ℚ
  vSeg : Option ℚ
  vOutro : Option ℚ
  vNF : Option ℚ
deriving DecidableEq

structure Ender where
  UF : Option String
  CEP : Option String
deriving DecidableEq

structure Party where
  CNPJ : Option String
  CPF : Option String
  ender : Option Ender
deriving DecidableEq

/-- `ParsedNFe` of parse.ts (the fields the audit consumes; `infNFe` is the
presence of the informational root, `ide` the presence of the `ide` block). -/
structure ParsedNFe where
  hasNfeProc : Bool
  accessKey : Option String
  infNFe : Bool
  det : List Item
  totals : Option Totals
  ide : Bool
  emit : Option Party
  dest : Option Party
deriving DecidableEq

/-- One zod validation issue (`message`, dotted `path`). -/
structure ZodIssue where
  message : String
  path : String
deriving DecidableEq

/-- The three situations at the head of `auditXml` that lead to a returned
report: the input envelope fails `InputSchema.safeParse`; `parseNFeXml`
throws (the one guarded call); or parsing yields a document whose consumed
intermediates are well-typed, summarised as a `ParsedNFe`.  (XML text
parsing itself is the external library.)  This does not exhaust the source's
behaviours: the dotted-path helper `get` evaluates `key in acc` on raw tree
values and throws a TypeError on a truthy primitive intermediate — e.g. a
`det` entry that parses to a bare number — and that exception escapes
`auditXml`, whose try/catch covers only `parseNFeXml`.  That crash path is
modelled separately on the raw values (`JVal`, `get`, `itemLoopReads`);
theorems quantifying over `AuditInput` therefore describe exactly the runs
in which a report is returned. -/
inductive AuditInput where
  | invalidInput (issues : List ZodIssue)
  | xmlParseFailure
  | parsed (p : ParsedNFe)
deriving DecidableEq

/-! ## The raw untyped tree (utils.ts `get`)

The audit reads item fields through `get(obj, 'a.b.c')`, a dotted-path
reduce over the untyped parser output.  Its step is
`acc && key in acc ? acc[key] : undefined`, and `key in acc` is defined only
when `acc` is an object: on a truthy primitive it throws a TypeError. -/

/-- An untyped tree value as the XML parser yields it.  `null` and
`undefined` are both collapsed into `jnull`; numbers are the rationals the
parsed floats denote. -/
inductive JVal where
  | jnull
  | jbool (b : Bool)
  | jnum (q : ℚ)
  | jstr (s : String)
  | jobj (fields : List (String × JVal))

/-- JavaScript truthiness of a tree value. -/
def jTruthy : JVal → Bool
  | .jnull => false
  | .jbool b => b
  | .jnum q => decide (¬ q = 0)
  | .jstr s => decide (¬ s = "")
  | .jobj _ => true

/-- One reduce step of `get` (utils.ts:16):
`acc && key in acc ? acc[key] : undefined`.  A falsy accumulator short-
circuits to `undefined`; on an object, `key in acc` selects the field or
`undefined`; on a truthy primitive, `key in acc` throws a TypeError,
modelled as `Except.error`. -/
def getStep (acc : JVal) (key : String) : Except Unit JVal :=
  if jTruthy acc then
    match acc with
    | .jobj fields =>
      match fields.lookup key with
      | some v => .ok v
      | none => .ok .jnull
    | _ => .error ()
  else .ok .jnull

/-- `get` of utils.ts: the reduce of `getStep` over the split path. -/
def get : JVal → List String → Except Unit JVal
  | acc, [] => .ok acc
  | acc, key :: rest =>
    match getStep acc key with
    | .error e => .error e
    | .ok v => get v rest

/-- The five dotted-path reads the financial loop (index.ts:283-297)
performs on each raw `det` entry, in source order.  A thrown TypeError
aborts `auditXml`: the try/catch covers only `parseNFeXml`. -/
def itemLoopReads (d : JVal) : Except Unit Unit := do
  let _ ← get d ["prod", "vProd"]
  let _ ← get d ["prod", "vDesc"]
  let _ ← get d ["prod", "vFrete"]
  let _ ← get d ["prod", "vSeg"]
  let _ ← get d ["prod", "vOutro"]
  pure ()

/-! ## Finding constructors (index.ts), one per `push` site. -/

def fINPUT_INVALID (iss : ZodIssue) : Finding :=
  { severity := .error, code := "INPUT_INVALID", title := "Entrada inválida"
    message := iss.message
    path := some (if iss.path == "" then "xml" else iss.path)
    hint := some "Cole o XML completo da NF-e (conteúdo do arquivo .xml)." }

def fXML_PARSE_ERROR : Finding :=
  { severity := .error, code := "XML_PARSE_ERROR", title := "XML inválido"
    message := "Não foi possível ler o XML (provável erro de formatação)."
    path := none
    hint := some "Verifique se o XML está completo e bem formatado (tags fechadas, sem caracteres quebrados)." }

def fINFNFE_MISSING : Finding :=
  { severity := .error, code := "INFNFE_MISSING", title := "Estrutura não encontrada"
    message := "Não encontrei NFe.infNFe no XML."
    path := some "NFe.infNFe"
    hint := some "Confirme se este XML é de NF-e (modelo 55) e se contém a estrutura padrão (nfeProc/NFe/infNFe)." }

def fITEMS_EMPTY : Finding :=
  { severity := .error, code := "ITEMS_EMPTY", title := "Sem itens"
    message := "A NF-e não possui itens (det)."
    path := some "NFe.infNFe.det"
    hint := some "Verifique se o XML está completo. Uma NF-e válida deve conter ao menos 1 item." }

def fACCESS_KEY_LEN (len : Nat) : Finding :=
  { severity := .warning, code := "ACCESS_KEY_LEN", title := "Chave de acesso incompleta"
    message := "A chave extraída não possui 44 dígitos (encontrei " ++ toString len ++ ")."
    path := none
    hint := some "Verifique se o atributo Id da infNFe está no formato NFe\x7b44dígitos\x7d." }

def fACCESS_KEY_DV_UNKNOWN : Finding :=
  { severity := .warning, code := "ACCESS_KEY_DV_UNKNOWN", title := "Não consegui validar o DV"
    message := "Não foi possível calcular o dígito verificador da chave."
    path := none, hint := none }

def fACCESS_KEY_DV_MISMATCH (dvIn dvCalc : Nat) : Finding :=
  { severity := .error, code := "ACCESS_KEY_DV_MISMATCH", title := "Chave com DV inválido"
    message := "DV da chave parece incorreto. Informado: " ++ toString dvIn
      ++ ", calculado: " ++ toString dvCalc ++ "."
    path := none
    hint := some "Se a chave foi digitada/alterada manualmente, gere novamente a partir dos dados originais." }

def fACCESS_KEY_OK : Finding :=
  { severity := .info, code := "ACCESS_KEY_OK", title := "Chave de acesso OK"
    message := "Chave de acesso com DV válido."
    path := none, hint := none }

def fACCESS_KEY_NOT_FOUND : Finding :=
  { severity := .warning, code := "ACCESS_KEY_NOT_FOUND", title := "Chave de acesso não encontrada"
    message := "Não consegui extrair a chave de acesso (infNFe.@Id ou protNFe.infProt.chNFe)."
    path := none
    hint := some "Se for possível, use o XML com nfeProc (com protocolo)." }

def fIDE_MISSING : Finding :=
  { severity := .error, code := "IDE_MISSING", title := "IDE ausente"
    message := "Não encontrei ide dentro de infNFe."
    path := some "NFe.infNFe.ide", hint := none }

def fEMIT_MISSING : Finding :=
  { severity := .error, code := "EMIT_MISSING", title := "Emitente ausente"
    message := "Não encontrei emit dentro de infNFe."
    path := some "NFe.infNFe.emit", hint := none }

def fDEST_MISSING : Finding :=
  { severity := .warning, code := "DEST_MISSING", title := "Destinatário ausente"
    message := "Não encontrei dest dentro de infNFe (em algumas operações pode existir, mas geralmente é obrigatório)."
    path := some "NFe.infNFe.dest", hint := none }

def docKind (isCnpj : Bool) : String := if isCnpj then "CNPJ" else "CPF"

def fEMIT_DOC_INVALID (isCnpj : Bool) : Finding :=
  { severity := .error, code := "EMIT_DOC_INVALID", title := "Documento do emitente inválido"
    message := "O " ++ docKind isCnpj ++ " do emitente parece inválido."
    path := some "NFe.infNFe.emit"
    hint := some "Verifique o número e os dígitos verificadores do documento do emitente." }

def fEMIT_DOC_OK (isCnpj : Bool) : Finding :=
  { severity := .info, code := "EMIT_DOC_OK", title := "Documento do emitente OK"
    message := "Documento do emitente (" ++ docKind isCnpj ++ ") válido."
    path := none, hint := none }

def fEMIT_DOC_MISSING : Finding :=
  { severity := .warning, code := "EMIT_DOC_MISSING", title := "Documento do emitente ausente"
    message := "Não encontrei CNPJ/CPF no emitente."
    path := some "NFe.infNFe.emit.CNPJ"
    hint := some "O emitente deve ter CNPJ (ou CPF em casos específicos)." }

def fDEST_DOC_INVALID (isCnpj : Bool) : Finding :=
  { severity := .warning, code := "DEST_DOC_INVALID", title := "Documento do destinatário suspeito"
    message := "O " ++ docKind isCnpj ++ " do destinatário parece inválido."
    path := some "NFe.infNFe.dest"
    hint := some "Verifique o número e os dígitos verificadores do documento do destinatário." }

def fDEST_DOC_OK (isCnpj : Bool) : Finding :=
  { severity := .info, code := "DEST_DOC_OK", title := "Documento do destinatário OK"
    message := "Documento do destinatário (" ++ docKind isCnpj ++ ") válido."
    path := none, hint := none }

def fDEST_DOC_MISSING : Finding :=
  { severity := .warning, code := "DEST_DOC_MISSING", title := "Documento do destinatário ausente"
    message := "Não encontrei CNPJ/CPF no destinatário."
    path := some "NFe.infNFe.dest.CNPJ"
    hint := some "Geralmente o destinatário deve ter CNPJ/CPF, dependendo do tipo de operação." }

def fEMIT_UF_MISSING : Finding :=
  { severity := .warning, code := "EMIT_UF_MISSING", title := "UF do emitente ausente"
    message := "Não encontrei enderEmit.UF no emitente."
    path := some "NFe.infNFe.emit.enderEmit.UF", hint := none }

def fDEST_UF_MISSING : Finding :=
  { severity := .warning, code := "DEST_UF_MISSING", title := "UF do destinatário ausente"
    message := "Não encontrei enderDest.UF no destinatário."
    path := some "NFe.infNFe.dest.enderDest.UF", hint := none }

def fEMIT_CEP_INVALID : Finding :=
  { severity := .warning, code := "EMIT_CEP_INVALID", title := "CEP do emitente inválido"
    message := "O CEP do emitente parece inválido (esperado 8 dígitos)."
    path := some "NFe.infNFe.emit.enderEmit.CEP"
    hint := some "Informe CEP com 8 dígitos (somente números)." }

def fDEST_CEP_INVALID : Finding :=
  { severity := .warning, code := "DEST_CEP_INVALID", title := "CEP do destinatário inválido"
    message := "O CEP do destinatário parece inválido (esperado 8 dígitos)."
    path := some "NFe.infNFe.dest.enderDest.CEP"
    hint := some "Informe CEP com 8 dígitos (somente números)." }

def fTOTALS_MISSING : Finding :=
  { severity := .warning, code := "TOTALS_MISSING", title := "Totais ausentes"
    message := "Não encontrei total.ICMSTot no XML."
    path := some "NFe.infNFe.total.ICMSTot"
    hint := some "Algumas validações de soma não poderão ser feitas sem os totais." }

def fITEM_VPROD_MISSING (n : Nat) : Finding :=
  { severity := .warning, code := "ITEM_VPROD_MISSING", title := "vProd ausente em itens"
    message := toString n ++ " item(ns) sem prod.vProd."
    path := none
    hint := some "Cada item deveria ter vProd preenchido para bater com os totais." }

def fTOTAL_VPROD_MISMATCH (sum tot diff : ℚ) : Finding :=
  { severity := .error, code := "TOTAL_VPROD_MISMATCH", title := "Total de produtos não confere"
    message := "Soma vProd(itens)=" ++ toString sum ++ " mas total vProd=" ++ toString tot
      ++ " (diferença " ++ toString diff ++ ")."
    path := some "NFe.infNFe.total.ICMSTot.vProd"
    hint := some "Revise arredondamentos e valores unitários/quantidades dos itens." }

def fTOTAL_VPROD_OK (tot : ℚ) : Finding :=
  { severity := .info, code := "TOTAL_VPROD_OK", title := "Total de produtos OK"
    message := "Soma dos itens bate com o total vProd (" ++ toString tot ++ ")."
    path := none, hint := none }

def fTOTAL_VDESC_MISMATCH (sum tot diff : ℚ) : Finding :=
  { severity := .warning, code := "TOTAL_VDESC_MISMATCH", title := "Desconto pode não conferir"
    message := "Soma vDesc(itens)=" ++ toString sum ++ " mas total vDesc=" ++ toString tot
      ++ " (diferença " ++ toString diff ++ ")."
    path := some "NFe.infNFe.total.ICMSTot.vDesc"
    hint := some "Verifique se descontos foram aplicados por item ou apenas no total." }

def fTOTAL_VDESC_OK (tot : ℚ) : Finding :=
  { severity := .info, code := "TOTAL_VDESC_OK", title := "Total de desconto OK"
    message := "Soma dos descontos dos itens bate com vDesc (" ++ toString tot ++ ")."
    path := none, hint := none }

def fTOTAL_VFRETE_MISMATCH (sum tot diff : ℚ) : Finding :=
  { severity := .warning, code := "TOTAL_VFRETE_MISMATCH", title := "Frete pode não conferir"
    message := "Soma vFrete(itens)=" ++ toString sum ++ " mas total vFrete=" ++ toString tot
      ++ " (diferença " ++ toString diff ++ ")."
    path := some "NFe.infNFe.total.ICMSTot.vFrete"
    hint := some "Verifique se o frete foi lançado nos itens ou apenas no total." }

def fTOTAL_VSEG_MISMATCH (sum tot diff : ℚ) : Finding :=
  { severity := .warning, code := "TOTAL_VSEG_MISMATCH", title := "Seguro pode não conferir"
    message := "Soma vSeg(itens)=" ++ toString sum ++ " mas total vSeg=" ++ toString tot
      ++ " (diferença " ++ toString diff ++ ")."
    path := some "NFe.infNFe.total.ICMSTot.vSeg"
    hint := some "Verifique se o seguro foi lançado nos itens ou apenas no total." }

def fTOTAL_VOUTRO_MISMATCH (sum tot diff : ℚ) : Finding :=
  { severity := .warning, code := "TOTAL_VOUTRO_MISMATCH", title := "Outras despesas pode não conferir"
    message := "Soma vOutro(itens)=" ++ toString sum ++ " mas total vOutro=" ++ toString tot
      ++ " (diferença " ++ toString diff ++ ")."
    path := some "NFe.infNFe.total.ICMSTot.vOutro"
    hint := some "Verifique se outras despesas foram lançadas nos itens ou no total." }

def fTOTAL_VNF_SUSPECT (expected tot diff : ℚ) : Finding :=
  { severity := .warning, code := "TOTAL_VNF_SUSPECT", title := "vNF pode estar inconsistente"
    message := "Esperado vNF≈" ++ toString expected ++ ", mas total vNF=" ++ toString tot
      ++ " (diferença " ++ toString diff ++ ")."
    path := some "NFe.infNFe.total.ICMSTot.vNF"
    hint := some "Confira a composição do total: produtos + frete/seguro/outros - desconto (e arredondamentos)." }

def fTOTAL_VNF_OK (expected : ℚ) : Finding :=
  { severity := .info, code := "TOTAL_VNF_OK", title := "vNF consistente"
    message := "vNF parece consistente com a composição (≈" ++ toString expected ++ ")."
    path := none, hint := none }

/-- The shared message fragment `Item ${i + 1}${cProd ? ` (${cProd})` : ''}`. -/
def itemTag (i : Nat) (cProd : String) : String :=
  "Item " ++ toString (i + 1) ++ (if cProd == "" then "" else " (" ++ cProd ++ ")")

def detPath (i : Nat) (field : String) : String :=
  "NFe.infNFe.det[" ++ toString i ++ "].prod." ++ field

def fITEM_QCOM_ZERO (i : Nat) (cProd : String) : Finding :=
  { severity := .error, code := "ITEM_QCOM_ZERO", title := "Quantidade inválida"
    message := itemTag i cProd ++ ": qCom <= 0."
    path := some (detPath i "qCom")
    hint := some "Quantidade deve ser maior que zero." }

def fITEM_VUN_ZERO (i : Nat) (cProd : String) : Finding :=
  { severity := .warning, code := "ITEM_VUN_ZERO", title := "Valor unitário suspeito"
    message := itemTag i cProd ++ ": vUnCom <= 0."
    path := some (detPath i "vUnCom")
    hint := some "Confirme se o valor unitário está correto." }

/-- The same-UF / interstate-CFOP variant of `CFOP_UF_MISMATCH`. -/
def fCFOP_UF_MISMATCH_SAME (i : Nat) (cProd cfop ufEmit ufDest : String) : Finding :=
  { severity := .warning, code := "CFOP_UF_MISMATCH", title := "CFOP sugere interestadual, mas UF é igual"
    message := itemTag i cProd ++ ": CFOP " ++ cfop ++ " costuma ser interestadual, porém emit/dest são "
      ++ ufEmit ++ "/" ++ ufDest ++ "."
    path := some (detPath i "CFOP")
    hint := some "Confira se a operação é realmente interestadual ou se o CFOP deve ser interno." }

/-- The different-UF / internal-CFOP variant of `CFOP_UF_MISMATCH`. -/
def fCFOP_UF_MISMATCH_DIFF (i : Nat) (cProd cfop ufEmit ufDest : String) : Finding :=
  { severity := .warning, code := "CFOP_UF_MISMATCH", title := "CFOP sugere interno, mas UF é diferente"
    message := itemTag i cProd ++ ": CFOP " ++ cfop ++ " costuma ser interno, porém emit/dest são "
      ++ ufEmit ++ "/" ++ ufDest ++ "."
    path := some (detPath i "CFOP")
    hint := some "Confira se a operação é interna ou se o CFOP deve ser interestadual." }

def fCFOP_MISSING (i : Nat) (cProd : String) : Finding :=
  { severity := .warning, code := "CFOP_MISSING", title := "CFOP ausente no item"
    message := itemTag i cProd ++ ": não encontrei prod.CFOP."
    path := some (detPath i "CFOP")
    hint := some "Cada item deve ter CFOP preenchido." }

def fNCM_MISSING (i : Nat) (cProd : String) : Finding :=
  { severity := .warning, code := "NCM_MISSING", title := "NCM ausente no item"
    message := itemTag i cProd ++ ": NCM não informado."
    path := some (detPath i "NCM")
    hint := some "Informe o NCM do produto (geralmente 8 dígitos)." }

def fNCM_INVALID_LEN (i : Nat) (cProd : String) (len : Nat) : Finding :=
  { severity := .warning, code := "NCM_INVALID_LEN", title := "NCM com tamanho inválido"
    message := itemTag i cProd ++ ": NCM com " ++ toString len ++ " dígitos (esperado 8)."
    path := some (detPath i "NCM")
    hint := some "Verifique se o NCM está completo (8 dígitos)." }

/-! ## The aggregator (`summarize`) -/

def summarize (findings : List Finding) (itemsCount : Nat) (hasNfeProc : Bool)
    (accessKey : Option String) (totals : Option TotalsMeta) (sums : Option SumsMeta) :
    AuditResult :=
  let errors := (findings.filter (fun f => decide (f.severity = Severity.error))).length
  let warnings := (findings.filter (fun f => decide (f.severity = Severity.warning))).length
  let infos := (findings.filter (fun f => decide (f.severity = Severity.info))).length
  { ok := errors == 0
    meta := { itemsCount := itemsCount, hasNfeProc := hasNfeProc, accessKey := accessKey
              totals := totals, sums := sums }
    summary := { errors := errors, warnings := warnings, infos := infos }
    findings := findings }

/-! ## The rule pipeline (`auditXml`), group by group in source order. -/

/-- `parsed.det.length === 0` → `ITEMS_EMPTY`. -/
def structuralFindings (det : List Item) : List Finding :=
  if det.length == 0 then [fITEMS_EMPTY] else []

/-- The access-key rule: `if (parsed.accessKey) … else …` of index.ts. -/
def accessKeyFindings (accessKey : Option String) : List Finding :=
  if optTruthy accessKey then
    let key := onlyDigitsL (accessKey.getD "")
    if key.length ≠ 44 then [fACCESS_KEY_LEN key.length]
    else
      let dvIn := charDigit (key.getD 43 '0')
      match calcNfeKeyDVL key with
      | none => [fACCESS_KEY_DV_UNKNOWN]
      | some dvCalc =>
        if dvCalc ≠ dvIn then [fACCESS_KEY_DV_MISMATCH dvIn dvCalc] else [fACCESS_KEY_OK]
  else [fACCESS_KEY_NOT_FOUND]

/-- `ide` / `emit` / `dest` presence checks. -/
def essentialFindings (p : ParsedNFe) : List Finding :=
  (if !p.ide then [fIDE_MISSING] else [])
    ++ (if p.emit.isNone then [fEMIT_MISSING] else [])
    ++ (if p.dest.isNone then [fDEST_MISSING] else [])

/-- `parsed.emit?.CNPJ ?? parsed.emit?.CPF`. -/
def emitDocOf (p : ParsedNFe) : Option String :=
  match p.emit with
  | none => none
  | some e =>
    match e.CNPJ with
    | some c => some c
    | none => e.CPF

/-- `parsed.dest?.CNPJ ?? parsed.dest?.CPF`. -/
def destDocOf (p : ParsedNFe) : Option String :=
  match p.dest with
  | none => none
  | some e =>
    match e.CNPJ with
    | some c => some c
    | none => e.CPF

/-- `String(doc).replace(/\D/g, '').length === 14`. -/
def docIsCnpj (s : String) : Bool := (onlyDigitsL s).length == 14

/-- Issuer document rule. -/
def emitDocFindings (p : ParsedNFe) : List Finding :=
  let doc := emitDocOf p
  if optTruthy doc then
    let v := doc.getD ""
    let isCnpj := docIsCnpj v
    let ok := if isCnpj then isValidCNPJ v else isValidCPF v
    if !ok then [fEMIT_DOC_INVALID isCnpj] else [fEMIT_DOC_OK isCnpj]
  else [fEMIT_DOC_MISSING]

/-- Recipient document rule (whole block guarded by `if (parsed.dest)`). -/
def destDocFindings (p : ParsedNFe) : List Finding :=
  if p.dest.isSome then
    let doc := destDocOf p
    if optTruthy doc then
      let v := doc.getD ""
      let isCnpj := docIsCnpj v
      let ok := if isCnpj then isValidCNPJ v else isValidCPF v
      if !ok then [fDEST_DOC_INVALID isCnpj] else [fDEST_DOC_OK isCnpj]
    else [fDEST_DOC_MISSING]
  else []

/-- `String(parsed.emit?.enderEmit?.UF ?? '').trim().toUpperCase()`. -/
def ufEmitOf (p : ParsedNFe) : String :=
  upperTrim (((p.emit.bind Party.ender).bind Ender.UF).getD "")

def ufDestOf (p : ParsedNFe) : String :=
  upperTrim (((p.dest.bind Party.ender).bind Ender.UF).getD "")

/-- `String(parsed.emit?.enderEmit?.CEP ?? '').trim()`. -/
def cepEmitOf (p : ParsedNFe) : String :=
  String.mk (trimL (((p.emit.bind Party.ender).bind Ender.CEP).getD "").data)

def cepDestOf (p : ParsedNFe) : String :=
  String.mk (trimL (((p.dest.bind Party.ender).bind Ender.CEP).getD "").data)

/-- UF-presence and CEP-format rules. -/
def ufCepFindings (p : ParsedNFe) : List Finding :=
  (if ufEmitOf p == "" then [fEMIT_UF_MISSING] else [])
    ++ (if p.dest.isSome && ufDestOf p == "" then [fDEST_UF_MISSING] else [])
    ++ (if !(cepEmitOf p == "") && !isValidCEP (cepEmitOf p) then [fEMIT_CEP_INVALID] else [])
    ++ (if p.dest.isSome && !(cepDestOf p == "") && !isValidCEP (cepDestOf p)
        then [fDEST_CEP_INVALID] else [])

/-! ### Financial reconciliation -/

/-- One running sum of the per-item loop: add the values that are present. -/
def sumOpt (det : List Item) (field : Item → Option ℚ) : ℚ :=
  det.foldl
    (fun acc d =>
      match field d with
      | some v => acc + v
      | none => acc) 0

/-- `vProdMissing`: items whose `prod.vProd` is absent/non-numeric. -/
def vProdMissingCount (det : List Item) : Nat :=
  det.countP (fun d => d.vProd.isNone)

def sumVProd (det : List Item) : ℚ := round2 (sumOpt det Item.vProd)
def sumVDesc (det : List Item) : ℚ := round2 (sumOpt det Item.vDesc)
def sumVFrete (det : List Item) : ℚ := round2 (sumOpt det Item.vFrete)
def sumVSeg (det : List Item) : ℚ := round2 (sumOpt det Item.vSeg)
def sumVOutro (det : List Item) : ℚ := round2 (sumOpt det Item.vOutro)

def totVProd (totals : Option Totals) : Option ℚ := totals.bind Totals.vProd
def totVDesc (totals : Option Totals) : Option ℚ := totals.bind Totals.vDesc
def totVFrete (totals : Option Totals) : Option ℚ := totals.bind Totals.vFrete
def totVSeg (totals : Option Totals) : Option ℚ := totals.bind Totals.vSeg
def totVOutro (totals : Option Totals) : Option ℚ := totals.bind Totals.vOutro
def totVNF (totals : Option Totals) : Option ℚ := totals.bind Totals.vNF

/-- `if (vProdMissing > 0)` (inside the `else` of the totals check). -/
def vProdMissingChunk (det : List Item) : List Finding :=
  if vProdMissingCount det > 0 then [fITEM_VPROD_MISSING (vProdMissingCount det)] else []

/-- `if (totVProd !== null)`: mandatory comparison, error or OK-info. -/
def vProdChunk (det : List Item) (t : Totals) : List Finding :=
  match t.vProd with
  | none => []
  | some tv =>
    let diff := round2 (sumVProd det - tv)
    if jsAbs diff > 1 / 100 then [fTOTAL_VPROD_MISMATCH (sumVProd det) tv diff]
    else [fTOTAL_VPROD_OK tv]

/-- `if (totVDesc !== null && sumVDesc > 0)`: warning on mismatch, OK-info on
match. -/
def vDescChunk (det : List Item) (t : Totals) : List Finding :=
  match t.vDesc with
  | none => []
  | some tv =>
    if sumVDesc det > 0 then
      let diff := round2 (sumVDesc det - tv)
      if jsAbs diff > 1 / 100 then [fTOTAL_VDESC_MISMATCH (sumVDesc det) tv diff]
      else [fTOTAL_VDESC_OK tv]
    else []

/-- `if (totVFrete !== null && sumVFrete > 0)`: warning on mismatch, nothing
on match. -/
def vFreteChunk (det : List Item) (t : Totals) : List Finding :=
  match t.vFrete with
  | none => []
  | some tv =>
    if sumVFrete det > 0 then
      let diff := round2 (sumVFrete det - tv)
      if jsAbs diff > 1 / 100 then [fTOTAL_VFRETE_MISMATCH (sumVFrete det) tv diff]
      else []
    else []

/-- `if (totVSeg !== null && sumVSeg > 0)`. -/
def vSegChunk (det : List Item) (t : Totals) : List Finding :=
  match t.vSeg with
  | none => []
  | some tv =>
    if sumVSeg det > 0 then
      let diff := round2 (sumVSeg det - tv)
      if jsAbs diff > 1 / 100 then [fTOTAL_VSEG_MISMATCH (sumVSeg det) tv diff]
      else []
    else []

/-- `if (totVOutro !== null && sumVOutro > 0)`. -/
def vOutroChunk (det : List Item) (t : Totals) : List Finding :=
  match t.vOutro with
  | none => []
  | some tv =>
    if sumVOutro det > 0 then
      let diff := round2 (sumVOutro det - tv)
      if jsAbs diff > 1 / 100 then [fTOTAL_VOUTRO_MISMATCH (sumVOutro det) tv diff]
      else []
    else []

/-- `if (totVNF !== null && totVProd !== null)`: the final-value heuristic. -/
def vNFChunk (t : Totals) : List Finding :=
  match t.vNF, t.vProd with
  | some n, some pv =>
    let expected :=
      round2 (pv + t.vFrete.getD 0 + t.vSeg.getD 0 + t.vOutro.getD 0 - t.vDesc.getD 0)
    let diff := round2 (expected - n)
    if jsAbs diff > 1 / 100 then [fTOTAL_VNF_SUSPECT expected n diff]
    else [fTOTAL_VNF_OK expected]
  | _, _ => []

/-- Totals-vs-items reconciliation and the `vNF` heuristic, in source order.
`ITEM_VPROD_MISSING` and every comparison live inside the `else` of the
`TOTALS_MISSING` check. -/
def financialFindings (det : List Item) (totals : Option Totals) : List Finding :=
  match totals with
  | none => [fTOTALS_MISSING]
  | some t =>
    vProdMissingChunk det ++ vProdChunk det t ++ vDescChunk det t ++ vFreteChunk det t
      ++ vSegChunk det t ++ vOutroChunk det t ++ vNFChunk t

/-! ### Per-item heuristics -/

/-- `qCom !== null && qCom <= 0` → error. -/
def qComChunk (i : Nat) (d : Item) : List Finding :=
  match d.qCom with
  | some q => if q ≤ 0 then [fITEM_QCOM_ZERO i d.cProd] else []
  | none => []

/-- `vUn !== null && vUn <= 0` → warning. -/
def vUnChunk (i : Nat) (d : Item) : List Finding :=
  match d.vUnCom with
  | some v => if v ≤ 0 then [fITEM_VUN_ZERO i d.cProd] else []
  | none => []

/-- The CFOP-vs-UF heuristic: cross-check only when the CFOP and both UF
codes are truthy; a missing CFOP is a warning of its own. -/
def cfopChunk (ufEmit ufDest : String) (i : Nat) (d : Item) : List Finding :=
  if optTruthy d.CFOP && !(ufEmit == "") && !(ufDest == "") then
    let s := d.CFOP.getD ""
    let same := ufEmit == ufDest
    (if same && isInterstateCfop s
     then [fCFOP_UF_MISMATCH_SAME i d.cProd s ufEmit ufDest] else [])
      ++ (if !same && isInternalCfop s
          then [fCFOP_UF_MISMATCH_DIFF i d.cProd s ufEmit ufDest] else [])
  else if !optTruthy d.CFOP then [fCFOP_MISSING i d.cProd]
  else []

/-- The 8-digit NCM shape check. -/
def ncmChunk (i : Nat) (d : Item) : List Finding :=
  let ncm := onlyDigitsL (d.NCM.getD "")
  if ncm.length == 0 then [fNCM_MISSING i d.cProd]
  else if ncm.length ≠ 8 then [fNCM_INVALID_LEN i d.cProd ncm.length]
  else []

/-- The body of the per-item loop for item `d` at 0-based index `i`. -/
def itemFindings (ufEmit ufDest : String) (i : Nat) (d : Item) : List Finding :=
  qComChunk i d ++ vUnChunk i d ++ cfopChunk ufEmit ufDest i d ++ ncmChunk i d

/-- The `for (let i = 0; i < itens.length; i++)` loop. -/
def perItemFindings (p : ParsedNFe) : List Finding :=
  p.det.enum.flatMap (fun x => itemFindings (ufEmitOf p) (ufDestOf p) x.1 x.2)

/-- All findings of a document past the `infNFe` gate, in rule order. -/
def mainFindings (p : ParsedNFe) : List Finding :=
  structuralFindings p.det
    ++ accessKeyFindings p.accessKey
    ++ essentialFindings p
    ++ emitDocFindings p
    ++ destDocFindings p
    ++ ufCepFindings p
    ++ financialFindings p.det p.totals
    ++ perItemFindings p

/-- The `meta.totals` object of the final `summarize` call. -/
def metaTotals (totals : Option Totals) : TotalsMeta :=
  { vProd := totVProd totals, vDesc := totVDesc totals, vFrete := totVFrete totals
    vSeg := totVSeg totals, vOutro := totVOutro totals, vNF := totVNF totals }

/-- The `meta.sums` object of the final `summarize` call. -/
def metaSums (det : List Item) : SumsMeta :=
  { vProd := sumVProd det, vDesc := sumVDesc det, vFrete := sumVFrete det
    vSeg := sumVSeg det, vOutro := sumVOutro det }

/-- `auditXml` once parsing succeeded: the `INFNFE_MISSING` gate, then the
full rule pipeline. -/
def auditParsed (p : ParsedNFe) : AuditResult :=
  if p.infNFe then
    summarize (mainFindings p) p.det.length p.hasNfeProc p.accessKey
      (some (metaTotals p.totals)) (some (metaSums p.det))
  else
    summarize [fINFNFE_MISSING] 0 p.hasNfeProc p.accessKey none none

/-- `auditXml` of index.ts over the three report-returning situations.
(The source function is not total: on a parsed document whose `det` entry is
a truthy primitive, the raw-tree reads throw — see `get`, `itemLoopReads`;
this function describes the runs that do return a report.) -/
def auditXml : AuditInput → AuditResult
  | .invalidInput issues => summarize (issues.map fINPUT_INVALID) 0 false none none none
  | .xmlParseFailure => summarize [fXML_PARSE_ERROR] 0 false none none none
  | .parsed p => auditParsed p

/-! ## Observations on reports -/

/-- The report has some finding with code `c`. -/
def hasCode (r : AuditResult) (c : String) : Prop :=
  ∃ f ∈ r.findings, f.code = c

/-- The report has some finding with code `c` and severity `sev`. -/
def hasFinding (r : AuditResult) (c : String) (sev : Severity) : Prop :=
  ∃ f ∈ r.findings, f.code = c ∧ f.severity = sev

instance (r : AuditResult) (c : String) : Decidable (hasCode r c) := by
  unfold hasCode; infer_instance

instance (r : AuditResult) (c : String) (sev : Severity) : Decidable (hasFinding r c sev) := by
  unfold hasFinding; infer_instance

/-- Count of findings with a given severity. -/
def countSev (sev : Severity) (fs : List Finding) : Nat :=
  (fs.filter (fun f => decide (f.severity = sev))).length

/-! ## Spec-words definitions and concrete fixture documents -/

/-- `specWSum`, the right-to-left weighted sum in the spec's words: the input
is the digit sequence already reversed, the weights cycle `2..9`. -/
def specWSum : Nat → List Nat → Nat
  | _, [] => 0
  | i, d :: rest => d * nfeKeyWeights.getD (i % 8) 0 + specWSum (i + 1) rest

/-- The check-digit formula as the spec states it, over the numeric digits of
the 43-digit base (left-to-right): weighted modulus-11 sum with weights
cycling `2,3,4,5,6,7,8,9` applied right-to-left, `dv = 11 - (sum mod 11)`,
and `dv ∈ {10, 11}` mapped to `0`. -/
def specKeyDV (ds : List Nat) : Nat :=
  let sum := specWSum 0 ds.reverse
  let dv := 11 - sum % 11
  if dv = 10 ∨ dv = 11 then 0 else dv

def wKey : String := "35190000000000000000000000000000000000012343"

def wDoc5 : ParsedNFe :=
  { hasNfeProc := true, accessKey := some wKey, infNFe := true, det := []
    totals := none, ide := true, emit := none, dest := none }

def wKey40 : String := "3519000000000000000000000000000000001234"

def wDoc6 : ParsedNFe :=
  { hasNfeProc := true, accessKey := some wKey40, infNFe := true, det := []
    totals := none, ide := true, emit := none, dest := none }

def cDoc3 : ParsedNFe :=
  { hasNfeProc := false, accessKey := none, infNFe := true
    det := [{ vProd := some 10, vDesc := some 5, vFrete := none, vSeg := none
              vOutro := none, qCom := some 1, vUnCom := some 10, cProd := "P1"
              CFOP := some "5102", NCM := some "12345678" }]
    totals := some { vProd := some 10, vDesc := some 5, vFrete := none, vSeg := none
                     vOutro := none, vNF := some 5 }
    ide := true, emit := none, dest := none }

def cDoc7 : ParsedNFe :=
  { hasNfeProc := false, accessKey := none, infNFe := true
    det := [{ vProd := none, vDesc := none, vFrete := none, vSeg := none
              vOutro := none, qCom := some 1, vUnCom := some 1, cProd := "P1"
              CFOP := some "5102", NCM := some "12345678" }]
    totals := none, ide := true, emit := none, dest := none }

def wDoc7 : ParsedNFe :=
  { hasNfeProc := false, accessKey := none, infNFe := true
    det := [{ vProd := none, vDesc := none, vFrete := none, vSeg := none
              vOutro := none, qCom := some 1, vUnCom := some 1, cProd := "P1"
              CFOP := some "5102", NCM := some "12345678" }]
    totals := some { vProd := none, vDesc := none, vFrete := none, vSeg := none
                     vOutro := none, vNF := none }
    ide := true, emit := none, dest := none }

/-- The modulus-11 rule shared by both check digits. -/
def mod11Rule (sum : Nat) : Nat :=
  let m := sum % 11
  if m < 2 then 0 else 11 - m

/-- The first check digit exactly as the claim words it: weights `9..1` over
the first 9 digits, under the modulus-11 rule.  (Stated for comparison with
the code; the code actually uses weights `10..2`.) -/
def cpfClaimDigit1 (ds : List Nat) : Nat :=
  mod11Rule (ds.getD 0 0 * 9 + ds.getD 1 0 * 8 + ds.getD 2 0 * 7 + ds.getD 3 0 * 6
    + ds.getD 4 0 * 5 + ds.getD 5 0 * 4 + ds.getD 6 0 * 3 + ds.getD 7 0 * 2
    + ds.getD 8 0 * 1)

/-- The amended first check digit: weights `10..2` over the first 9 digits. -/
def cpfSpecDigit1 (ds : List Nat) : Nat :=
  mod11Rule (ds.getD 0 0 * 10 + ds.getD 1 0 * 9 + ds.getD 2 0 * 8 + ds.getD 3 0 * 7
    + ds.getD 4 0 * 6 + ds.getD 5 0 * 5 + ds.getD 6 0 * 4 + ds.getD 7 0 * 3
    + ds.getD 8 0 * 2)

/-- The amended second check digit: weights `11..2` over the first 10 digits
(the 10th being the first check digit in a well-formed number). -/
def cpfSpecDigit2 (ds : List Nat) : Nat :=
  mod11Rule (ds.getD 0 0 * 11 + ds.getD 1 0 * 10 + ds.getD 2 0 * 9 + ds.getD 3 0 * 8
    + ds.getD 4 0 * 7 + ds.getD 5 0 * 6 + ds.getD 6 0 * 5 + ds.getD 7 0 * 4
    + ds.getD 8 0 * 3 + ds.getD 9 0 * 2)

/-! ## Proofs.

The arithmetic of `Rat` is `@[irreducible]` in Batteries; re-allowing
unfolding lets concrete reports be evaluated by `decide`. -/

attribute [local semireducible] Rat.add Rat.mul Rat.sub Rat.inv

lemma summarize_findings (fs : List Finding) (n : Nat) (h : Bool) (a : Option String)
    (t : Option TotalsMeta) (s : Option SumsMeta) :
    (summarize fs n h a t s).findings = fs := rfl

lemma summarize_ok (fs : List Finding) (n : Nat) (h : Bool) (a : Option String)
    (t : Option TotalsMeta) (s : Option SumsMeta) :
    (summarize fs n h a t s).ok = (countSev Severity.error fs == 0) := rfl

lemma summarize_errors (fs : List Finding) (n : Nat) (h : Bool) (a : Option String)
    (t : Option TotalsMeta) (s : Option SumsMeta) :
    (summarize fs n h a t s).summary.errors = countSev Severity.error fs := rfl

lemma summarize_warnings (fs : List Finding) (n : Nat) (h : Bool) (a : Option String)
    (t : Option TotalsMeta) (s : Option SumsMeta) :
    (summarize fs n h a t s).summary.warnings = countSev Severity.warning fs := rfl

lemma summarize_infos (fs : List Finding) (n : Nat) (h : Bool) (a : Option String)
    (t : Option TotalsMeta) (s : Option SumsMeta) :
    (summarize fs n h a t s).summary.infos = countSev Severity.info fs := rfl

/-- The three severities are exhaustive and mutually exclusive, so the three
per-severity counts partition any findings list. -/
lemma countSev_partition (fs : List Finding) :
    countSev Severity.error fs + countSev Severity.warning fs + countSev Severity.info fs
      = fs.length := by
  induction fs with
  | nil => simp [countSev]
  | cons f t ih =>
    rcases hsev : f.severity <;>
      simp only [countSev, List.filter_cons, hsev, List.length_cons] at ih ⊢ <;>
      simp <;> omega

/-- Every branch of `auditXml` returns through the aggregator `summarize`. -/
lemma auditXml_summarize_shape (i : AuditInput) :
    ∃ fs n h a t s, auditXml i = summarize fs n h a t s := by
  cases i with
  | invalidInput issues => exact ⟨_, _, _, _, _, _, rfl⟩
  | xmlParseFailure => exact ⟨_, _, _, _, _, _, rfl⟩
  | parsed p =>
    show ∃ fs n h a t s, auditParsed p = summarize fs n h a t s
    unfold auditParsed
    by_cases hp : p.infNFe = true
    · rw [if_pos hp]; exact ⟨_, _, _, _, _, _, rfl⟩
    · rw [if_neg hp]; exact ⟨_, _, _, _, _, _, rfl⟩

/-- C1: for every input value, the report returned by `auditXml` has
`ok = true` exactly when the number of findings with severity `error` in
that report is zero. -/
theorem claim1_ok_iff_no_error_findings (i : AuditInput) :
    (auditXml i).ok = true ↔ countSev Severity.error (auditXml i).findings = 0 := by
  obtain ⟨fs, n, h, a, t, s, heq⟩ := auditXml_summarize_shape i
  rw [heq, summarize_ok, summarize_findings]
  exact beq_iff_eq

/-- C9: for every input value, the three severity counts of the summary are
the counts of `error`/`warning`/`info` findings and add up to the length of
the findings list: the severities partition the findings. -/
theorem claim9_summary_partitions_findings (i : AuditInput) :
    (auditXml i).summary.errors = countSev Severity.error (auditXml i).findings
      ∧ (auditXml i).summary.warnings = countSev Severity.warning (auditXml i).findings
      ∧ (auditXml i).summary.infos = countSev Severity.info (auditXml i).findings
      ∧ (auditXml i).summary.errors + (auditXml i).summary.warnings
          + (auditXml i).summary.infos = (auditXml i).findings.length := by
  obtain ⟨fs, n, h, a, t, s, heq⟩ := auditXml_summarize_shape i
  rw [heq, summarize_errors, summarize_warnings, summarize_infos, summarize_findings]
  exact ⟨rfl, rfl, rfl, countSev_partition fs⟩

/-- C2 (code bug): `auditXml` does not always return a report.  On the
input `xml = "<NFe><infNFe><det>1</det></infNFe></NFe>"` the envelope check
passes (length ≥ 10), the markup parses, and `parseTagValue` collapses the
`det` element to the bare number 1 — a truthy value, so the document passes
the `infNFe` gate and `asArray` yields `[1]`.  The financial loop's first
read `get(d, 'prod.vProd')` then evaluates `'prod' in 1`, which throws a
TypeError; the try/catch covers only `parseNFeXml`, so the exception escapes
`auditXml` — contradicting the propagation policy the spec states.  The same
happens one level deeper for `<det><prod>5</prod></det>`. -/
theorem claim2_get_typeerror :
    ("<NFe><infNFe><det>1</det></infNFe></NFe>" : String).length ≥ 10
      ∧ jTruthy (JVal.jnum 1) = true
      ∧ get (JVal.jnum 1) ["prod", "vProd"] = Except.error ()
      ∧ itemLoopReads (JVal.jnum 1) = Except.error ()
      ∧ get (JVal.jobj [("prod", JVal.jnum 5)]) ["prod", "vProd"] = Except.error () := by
  refine ⟨by decide, by decide, rfl, rfl, rfl⟩

/-- C8: when parsing succeeds but the informational root is absent, the
report consists of exactly the one `INFNFE_MISSING` error finding, `ok` is
`false`, and the metadata still carries the protocol-presence flag and the
extracted access key. -/
theorem claim8_infnfe_gate (p : ParsedNFe) (hp : p.infNFe = false) :
    (auditXml (.parsed p)).findings = [fINFNFE_MISSING]
      ∧ fINFNFE_MISSING.severity = Severity.error
      ∧ (auditXml (.parsed p)).ok = false
      ∧ (auditXml (.parsed p)).summary.errors = 1
      ∧ (auditXml (.parsed p)).meta.hasNfeProc = p.hasNfeProc
      ∧ (auditXml (.parsed p)).meta.accessKey = p.accessKey
      ∧ (auditXml (.parsed p)).meta.itemsCount = 0 := by
  have heq : auditXml (.parsed p) = summarize [fINFNFE_MISSING] 0 p.hasNfeProc p.accessKey
      none none := by
    show auditParsed p = _
    unfold auditParsed
    rw [if_neg (by simp [hp])]
  rw [heq]
  refine ⟨rfl, rfl, ?_, ?_, rfl, rfl, rfl⟩
  · rw [summarize_ok]
    simp [countSev, fINFNFE_MISSING]
  · rw [summarize_errors]
    simp [countSev, fINFNFE_MISSING]

/-- Witness for C8 at a concrete parsed document without `infNFe`. -/
theorem claim8_witness :
    (auditXml (.parsed
        { hasNfeProc := true, accessKey := some "ABC", infNFe := false, det := []
          totals := none, ide := false, emit := none, dest := none })).findings
        = [fINFNFE_MISSING]
      ∧ (auditXml (.parsed
          { hasNfeProc := true, accessKey := some "ABC", infNFe := false, det := []
            totals := none, ide := false, emit := none, dest := none })).ok = false :=
  ⟨(claim8_infnfe_gate _ (by decide)).1, (claim8_infnfe_gate _ (by decide)).2.2.1⟩

/-! ### Code inventories: which finding codes each rule group can emit. -/

lemma code_structural {f : Finding} {det : List Item} (h : f ∈ structuralFindings det) :
    f.code = "ITEMS_EMPTY" := by
  simp only [structuralFindings] at h
  repeat any_goals split at h
  all_goals simp_all [fITEMS_EMPTY]

lemma code_accessKey {f : Finding} {ak : Option String} (h : f ∈ accessKeyFindings ak) :
    f.code = "ACCESS_KEY_LEN" ∨ f.code = "ACCESS_KEY_DV_UNKNOWN"
      ∨ f.code = "ACCESS_KEY_DV_MISMATCH" ∨ f.code = "ACCESS_KEY_OK"
      ∨ f.code = "ACCESS_KEY_NOT_FOUND" := by
  simp only [accessKeyFindings] at h
  repeat any_goals split at h
  all_goals simp_all [fACCESS_KEY_LEN, fACCESS_KEY_DV_UNKNOWN, fACCESS_KEY_DV_MISMATCH,
    fACCESS_KEY_OK, fACCESS_KEY_NOT_FOUND]

lemma code_essential {f : Finding} {p : ParsedNFe} (h : f ∈ essentialFindings p) :
    f.code = "IDE_MISSING" ∨ f.code = "EMIT_MISSING" ∨ f.code = "DEST_MISSING" := by
  unfold essentialFindings at h
  simp only [List.mem_append] at h
  rcases h with (h | h) | h <;> (repeat any_goals split at h) <;>
    simp_all [fIDE_MISSING, fEMIT_MISSING, fDEST_MISSING]

lemma code_emitDoc {f : Finding} {p : ParsedNFe} (h : f ∈ emitDocFindings p) :
    f.code = "EMIT_DOC_INVALID" ∨ f.code = "EMIT_DOC_OK" ∨ f.code = "EMIT_DOC_MISSING" := by
  simp only [emitDocFindings] at h
  repeat any_goals split at h
  all_goals simp_all [fEMIT_DOC_INVALID, fEMIT_DOC_OK, fEMIT_DOC_MISSING]

lemma code_destDoc {f : Finding} {p : ParsedNFe} (h : f ∈ destDocFindings p) :
    f.code = "DEST_DOC_INVALID" ∨ f.code = "DEST_DOC_OK" ∨ f.code = "DEST_DOC_MISSING" := by
  simp only [destDocFindings] at h
  repeat any_goals split at h
  all_goals simp_all [fDEST_DOC_INVALID, fDEST_DOC_OK, fDEST_DOC_MISSING]

lemma code_ufCep {f : Finding} {p : ParsedNFe} (h : f ∈ ufCepFindings p) :
    f.code = "EMIT_UF_MISSING" ∨ f.code = "DEST_UF_MISSING" ∨ f.code = "EMIT_CEP_INVALID"
      ∨ f.code = "DEST_CEP_INVALID" := by
  unfold ufCepFindings at h
  simp only [List.mem_append] at h
  rcases h with ((h | h) | h) | h <;> (repeat any_goals split at h) <;>
    simp_all [fEMIT_UF_MISSING, fDEST_UF_MISSING, fEMIT_CEP_INVALID, fDEST_CEP_INVALID]

lemma code_vProdMissingChunk {f : Finding} {det : List Item} (h : f ∈ vProdMissingChunk det) :
    f.code = "ITEM_VPROD_MISSING" := by
  simp only [vProdMissingChunk] at h
  repeat any_goals split at h
  all_goals simp_all [fITEM_VPROD_MISSING]

lemma code_vProdChunk {f : Finding} {det : List Item} {t : Totals} (h : f ∈ vProdChunk det t) :
    f.code = "TOTAL_VPROD_MISMATCH" ∨ f.code = "TOTAL_VPROD_OK" := by
  simp only [vProdChunk] at h
  repeat any_goals split at h
  all_goals simp_all [fTOTAL_VPROD_MISMATCH, fTOTAL_VPROD_OK]

lemma code_vDescChunk {f : Finding} {det : List Item} {t : Totals} (h : f ∈ vDescChunk det t) :
    f.code = "TOTAL_VDESC_MISMATCH" ∨ f.code = "TOTAL_VDESC_OK" := by
  simp only [vDescChunk] at h
  repeat any_goals split at h
  all_goals simp_all [fTOTAL_VDESC_MISMATCH, fTOTAL_VDESC_OK]

lemma code_vFreteChunk {f : Finding} {det : List Item} {t : Totals} (h : f ∈ vFreteChunk det t) :
    f.code = "TOTAL_VFRETE_MISMATCH" := by
  simp only [vFreteChunk] at h
  repeat any_goals split at h
  all_goals simp_all [fTOTAL_VFRETE_MISMATCH]

lemma code_vSegChunk {f : Finding} {det : List Item} {t : Totals} (h : f ∈ vSegChunk det t) :
    f.code = "TOTAL_VSEG_MISMATCH" := by
  simp only [vSegChunk] at h
  repeat any_goals split at h
  all_goals simp_all [fTOTAL_VSEG_MISMATCH]

lemma code_vOutroChunk {f : Finding} {det : List Item} {t : Totals} (h : f ∈ vOutroChunk det t) :
    f.code = "TOTAL_VOUTRO_MISMATCH" := by
  simp only [vOutroChunk] at h
  repeat any_goals split at h
  all_goals simp_all [fTOTAL_VOUTRO_MISMATCH]

lemma code_vNFChunk {f : Finding} {t : Totals} (h : f ∈ vNFChunk t) :
    f.code = "TOTAL_VNF_SUSPECT" ∨ f.code = "TOTAL_VNF_OK" := by
  simp only [vNFChunk] at h
  repeat any_goals split at h
  all_goals simp_all [fTOTAL_VNF_SUSPECT, fTOTAL_VNF_OK]

lemma code_financial {f : Finding} {det : List Item} {totals : Option Totals}
    (h : f ∈ financialFindings det totals) :
    f.code = "TOTALS_MISSING" ∨ f.code = "ITEM_VPROD_MISSING"
      ∨ f.code = "TOTAL_VPROD_MISMATCH" ∨ f.code = "TOTAL_VPROD_OK"
      ∨ f.code = "TOTAL_VDESC_MISMATCH" ∨ f.code = "TOTAL_VDESC_OK"
      ∨ f.code = "TOTAL_VFRETE_MISMATCH" ∨ f.code = "TOTAL_VSEG_MISMATCH"
      ∨ f.code = "TOTAL_VOUTRO_MISMATCH" ∨ f.code = "TOTAL_VNF_SUSPECT"
      ∨ f.code = "TOTAL_VNF_OK" := by
  unfold financialFindings at h
  split at h
  · simp_all [fTOTALS_MISSING]
  · simp only [List.mem_append] at h
    rcases h with (((((h | h) | h) | h) | h) | h) | h
    · exact Or.inr (Or.inl (code_vProdMissingChunk h))
    · rcases code_vProdChunk h with h | h <;> simp [h]
    · rcases code_vDescChunk h with h | h <;> simp [h]
    · simp [code_vFreteChunk h]
    · simp [code_vSegChunk h]
    · simp [code_vOutroChunk h]
    · rcases code_vNFChunk h with h | h <;> simp [h]

lemma code_qComChunk {f : Finding} {i : Nat} {d : Item} (h : f ∈ qComChunk i d) :
    f.code = "ITEM_QCOM_ZERO" := by
  simp only [qComChunk] at h
  repeat any_goals split at h
  all_goals simp_all [fITEM_QCOM_ZERO]

lemma code_vUnChunk {f : Finding} {i : Nat} {d : Item} (h : f ∈ vUnChunk i d) :
    f.code = "ITEM_VUN_ZERO" := by
  simp only [vUnChunk] at h
  repeat any_goals split at h
  all_goals simp_all [fITEM_VUN_ZERO]

lemma code_cfopChunk {f : Finding} {uE uD : String} {i : Nat} {d : Item}
    (h : f ∈ cfopChunk uE uD i d) :
    f.code = "CFOP_UF_MISMATCH" ∨ f.code = "CFOP_MISSING" := by
  simp only [cfopChunk] at h
  repeat any_goals split at h
  all_goals simp_all [fCFOP_UF_MISMATCH_SAME, fCFOP_UF_MISMATCH_DIFF, fCFOP_MISSING]

lemma code_ncmChunk {f : Finding} {i : Nat} {d : Item} (h : f ∈ ncmChunk i d) :
    f.code = "NCM_MISSING" ∨ f.code = "NCM_INVALID_LEN" := by
  simp only [ncmChunk] at h
  repeat any_goals split at h
  all_goals simp_all [fNCM_MISSING, fNCM_INVALID_LEN]

lemma code_perItem {f : Finding} {p : ParsedNFe} (h : f ∈ perItemFindings p) :
    f.code = "ITEM_QCOM_ZERO" ∨ f.code = "ITEM_VUN_ZERO" ∨ f.code = "CFOP_UF_MISMATCH"
      ∨ f.code = "CFOP_MISSING" ∨ f.code = "NCM_MISSING" ∨ f.code = "NCM_INVALID_LEN" := by
  unfold perItemFindings at h
  simp only [List.mem_flatMap] at h
  obtain ⟨x, _, h⟩ := h
  unfold itemFindings at h
  simp only [List.mem_append] at h
  rcases h with ((h | h) | h) | h
  · simp [code_qComChunk h]
  · simp [code_vUnChunk h]
  · rcases code_cfopChunk h with h | h <;> simp [h]
  · rcases code_ncmChunk h with h | h <;> simp [h]

/-! ### Access-key lemmas -/

/-- On a list of digit characters the accumulation loop never fails. -/
lemma dvSumLoop_isSome :
    ∀ (cs : List Char), (∀ c ∈ cs, c.isDigit = true) → ∀ w, ∃ s, dvSumLoop w cs = some s := by
  intro cs
  induction cs with
  | nil => exact fun _ w => ⟨0, rfl⟩
  | cons c rest ih =>
    intro h w
    obtain ⟨s, hs⟩ := ih (fun x hx => h x (List.mem_cons_of_mem _ hx)) (w + 1)
    have hc : charNum c = some (c.toNat - 48) := by
      simp [charNum, h c (List.mem_cons_self c rest)]
    exact ⟨(c.toNat - 48) * nfeKeyWeights.getD (w % 8) 0 + s, by simp only [dvSumLoop, hc, hs]⟩

/-- On digit characters the loop computes exactly the spec's weighted sum. -/
lemma dvSumLoop_eq_specWSum :
    ∀ (cs : List Char), (∀ c ∈ cs, c.isDigit = true) → ∀ w,
      dvSumLoop w cs = some (specWSum w (cs.map charDigit)) := by
  intro cs
  induction cs with
  | nil => exact fun _ _ => rfl
  | cons c rest ih =>
    intro h w
    have hc : charNum c = some (charDigit c) := by
      simp [charNum, charDigit, h c (List.mem_cons_self c rest)]
    simp only [dvSumLoop, hc, ih (fun x hx => h x (List.mem_cons_of_mem _ hx)) (w + 1),
      List.map_cons, specWSum]

lemma mem_take_digits {cs : List Char} {c : Char} (n : Nat)
    (hc : c ∈ (cs.filter Char.isDigit).take n) : c.isDigit = true :=
  List.of_mem_filter (List.mem_of_mem_take hc)

/-- When the input normalises to exactly 44 digits, `calcNfeKeyDV` computes
the spec formula on the first 43 digits — in particular it never fails and
its value is a digit. -/
lemma calcNfeKeyDVL_spec {cs : List Char} (hl : (cs.filter Char.isDigit).length = 44) :
    calcNfeKeyDVL cs
        = some (specKeyDV (((cs.filter Char.isDigit).take 43).map charDigit))
      ∧ specKeyDV (((cs.filter Char.isDigit).take 43).map charDigit) ≤ 9 := by
  have hdig : ∀ c ∈ ((cs.filter Char.isDigit).take 43).reverse, c.isDigit = true := by
    intro c hc
    exact mem_take_digits 43 (List.mem_reverse.mp hc)
  have hloop := dvSumLoop_eq_specWSum _ hdig 0
  have hrev : ((cs.filter Char.isDigit).take 43).reverse.map charDigit
      = (((cs.filter Char.isDigit).take 43).map charDigit).reverse := by
    simp [List.map_reverse]
  have hlen43 : ((cs.filter Char.isDigit).take 43).length = 43 := by
    simp [List.length_take, hl]
  constructor
  · simp only [calcNfeKeyDVL, hl, hlen43]
    norm_num
    rw [hloop, hrev]
    simp [specKeyDV]
    refine ⟨by omega, ?_⟩
    split <;> rfl
  · simp only [specKeyDV]
    have : specWSum 0 (((cs.filter Char.isDigit).take 43).map charDigit).reverse % 11 < 11 :=
      Nat.mod_lt _ (by omega)
    split <;> omega

/-- The 44-digit key and its 43-digit prefix give the same check digit
(recomputing from the first 43 digits of a valid key reproduces the DV). -/
lemma calcNfeKeyDVL_take43 {key : List Char} (hd : ∀ c ∈ key, c.isDigit = true)
    (hl : key.length = 44) :
    calcNfeKeyDVL (key.take 43) = calcNfeKeyDVL key := by
  have hself : key.filter Char.isDigit = key := List.filter_eq_self.mpr hd
  have htake : (key.take 43).filter Char.isDigit = key.take 43 :=
    List.filter_eq_self.mpr fun c hc => hd c (List.mem_of_mem_take hc)
  have hlen43 : (key.take 43).length = 43 := by simp [List.length_take, hl]
  simp [calcNfeKeyDVL, hself, htake, hl, hlen43, List.take_take]

/-- Membership in the full post-gate findings list splits over the groups. -/
lemma mem_mainFindings {f : Finding} {p : ParsedNFe} :
    f ∈ mainFindings p ↔
      f ∈ structuralFindings p.det ∨ f ∈ accessKeyFindings p.accessKey
        ∨ f ∈ essentialFindings p ∨ f ∈ emitDocFindings p ∨ f ∈ destDocFindings p
        ∨ f ∈ ufCepFindings p ∨ f ∈ financialFindings p.det p.totals
        ∨ f ∈ perItemFindings p := by
  unfold mainFindings
  simp [List.mem_append, or_assoc]

/-- Past the gate, the report's findings are the pipeline's findings. -/
lemma auditParsed_findings {p : ParsedNFe} (hp : p.infNFe = true) :
    (auditXml (.parsed p)).findings = mainFindings p := by
  show (auditParsed p).findings = _
  unfold auditParsed
  rw [if_pos hp, summarize_findings]

/-- Without the informational root, the findings are the single gate error. -/
lemma auditParsed_findings_notinf {p : ParsedNFe} (hp : p.infNFe = false) :
    (auditXml (.parsed p)).findings = [fINFNFE_MISSING] := by
  show (auditParsed p).findings = _
  unfold auditParsed
  rw [if_neg (by simp [hp]), summarize_findings]

/-- Every finding of a post-gate report is an access-key finding, a
financial finding, or carries one of the remaining groups' codes. -/
lemma code_resolve {p : ParsedNFe} {f : Finding} (hp : p.infNFe = true)
    (hf : f ∈ (auditXml (.parsed p)).findings) :
    f ∈ accessKeyFindings p.accessKey ∨ f ∈ financialFindings p.det p.totals
      ∨ f.code = "ITEMS_EMPTY" ∨ f.code = "IDE_MISSING" ∨ f.code = "EMIT_MISSING"
      ∨ f.code = "DEST_MISSING" ∨ f.code = "EMIT_DOC_INVALID" ∨ f.code = "EMIT_DOC_OK"
      ∨ f.code = "EMIT_DOC_MISSING" ∨ f.code = "DEST_DOC_INVALID" ∨ f.code = "DEST_DOC_OK"
      ∨ f.code = "DEST_DOC_MISSING" ∨ f.code = "EMIT_UF_MISSING" ∨ f.code = "DEST_UF_MISSING"
      ∨ f.code = "EMIT_CEP_INVALID" ∨ f.code = "DEST_CEP_INVALID" ∨ f.code = "ITEM_QCOM_ZERO"
      ∨ f.code = "ITEM_VUN_ZERO" ∨ f.code = "CFOP_UF_MISMATCH" ∨ f.code = "CFOP_MISSING"
      ∨ f.code = "NCM_MISSING" ∨ f.code = "NCM_INVALID_LEN" := by
  rw [auditParsed_findings hp] at hf
  rcases mem_mainFindings.1 hf with h | h | h | h | h | h | h | h
  · simp [code_structural h]
  · exact Or.inl h
  · rcases code_essential h with e | e | e <;> simp [e]
  · rcases code_emitDoc h with e | e | e <;> simp [e]
  · rcases code_destDoc h with e | e | e <;> simp [e]
  · rcases code_ufCep h with e | e | e | e <;> simp [e]
  · exact Or.inr (Or.inl h)
  · rcases code_perItem h with e | e | e | e | e | e <;> simp [e]

lemma access_code_ne {ak : Option String} {c : String}
    (hc : c ∉ (["ACCESS_KEY_LEN", "ACCESS_KEY_DV_UNKNOWN", "ACCESS_KEY_DV_MISMATCH",
      "ACCESS_KEY_OK", "ACCESS_KEY_NOT_FOUND"] : List String)) :
    ∀ f ∈ accessKeyFindings ak, f.code ≠ c := by
  intro f hf hcode
  rcases code_accessKey hf with e | e | e | e | e <;> exact hc (by simp [hcode.symm.trans e])

lemma fin_code_ne {det : List Item} {totals : Option Totals} {c : String}
    (hc : c ∉ (["TOTALS_MISSING", "ITEM_VPROD_MISSING", "TOTAL_VPROD_MISMATCH",
      "TOTAL_VPROD_OK", "TOTAL_VDESC_MISMATCH", "TOTAL_VDESC_OK", "TOTAL_VFRETE_MISMATCH",
      "TOTAL_VSEG_MISMATCH", "TOTAL_VOUTRO_MISMATCH", "TOTAL_VNF_SUSPECT",
      "TOTAL_VNF_OK"] : List String)) :
    ∀ f ∈ financialFindings det totals, f.code ≠ c := by
  intro f hf hcode
  rcases code_financial hf with e | e | e | e | e | e | e | e | e | e | e <;>
    exact hc (by simp [hcode.symm.trans e])

/-- A report past the gate has no finding with code `c` when neither the
access-key group, nor the financial group, nor any other group can emit `c`. -/
lemma hasCode_only_access {p : ParsedNFe} {c : String} (hp : p.infNFe = true)
    (hfin : ∀ f ∈ financialFindings p.det p.totals, f.code ≠ c)
    (hother : c ∉ (["ITEMS_EMPTY", "IDE_MISSING", "EMIT_MISSING", "DEST_MISSING",
      "EMIT_DOC_INVALID", "EMIT_DOC_OK", "EMIT_DOC_MISSING", "DEST_DOC_INVALID",
      "DEST_DOC_OK", "DEST_DOC_MISSING", "EMIT_UF_MISSING", "DEST_UF_MISSING",
      "EMIT_CEP_INVALID", "DEST_CEP_INVALID", "ITEM_QCOM_ZERO", "ITEM_VUN_ZERO",
      "CFOP_UF_MISMATCH", "CFOP_MISSING", "NCM_MISSING", "NCM_INVALID_LEN"] : List String))
    (hacc : ∀ f ∈ accessKeyFindings p.accessKey, f.code ≠ c) :
    ¬ hasCode (auditXml (.parsed p)) c := by
  rintro ⟨f, hf, hcode⟩
  rcases code_resolve hp hf with h | h | h | h | h | h | h | h | h | h | h | h | h | h | h
    | h | h | h | h | h | h | h
  · exact hacc f h hcode
  · exact hfin f h hcode
  all_goals exact hother (by simp [hcode.symm.trans h])

/-! ### Shapes of the access-key group under each guard -/

lemma accessKeyFindings_notfound {ak : Option String} (h : optTruthy ak = false) :
    accessKeyFindings ak = [fACCESS_KEY_NOT_FOUND] := by
  simp [accessKeyFindings, h]

lemma accessKeyFindings_len {k : String} (ht : optTruthy (some k) = true)
    (hl : (onlyDigitsL k).length ≠ 44) :
    accessKeyFindings (some k) = [fACCESS_KEY_LEN (onlyDigitsL k).length] := by
  simp [accessKeyFindings, ht, hl]

lemma filter_idem_onlyDigits (k : String) :
    (onlyDigitsL k).filter Char.isDigit = onlyDigitsL k :=
  List.filter_eq_self.mpr fun _ hc => List.of_mem_filter hc

/-- At 44 digits, the access-key group is decided by the spec check digit
against the supplied 44th digit. -/
lemma accessKeyFindings_44 {k : String} (ht : optTruthy (some k) = true)
    (hl : (onlyDigitsL k).length = 44) :
    accessKeyFindings (some k) =
      if specKeyDV (((onlyDigitsL k).take 43).map charDigit)
          ≠ charDigit ((onlyDigitsL k).getD 43 '0') then
        [fACCESS_KEY_DV_MISMATCH (charDigit ((onlyDigitsL k).getD 43 '0'))
          (specKeyDV (((onlyDigitsL k).take 43).map charDigit))]
      else [fACCESS_KEY_OK] := by
  have hl' : ((onlyDigitsL k).filter Char.isDigit).length = 44 := by
    rw [filter_idem_onlyDigits]; exact hl
  have hcalc := (calcNfeKeyDVL_spec hl').1
  rw [filter_idem_onlyDigits] at hcalc
  simp only [accessKeyFindings, ht, if_pos rfl, Option.getD_some, hl, hcalc]
  simp

lemma access_no_unknown {ak : Option String} :
    ∀ f ∈ accessKeyFindings ak, f.code ≠ "ACCESS_KEY_DV_UNKNOWN" := by
  intro f hf
  by_cases hopt : optTruthy ak = true
  · cases ak with
    | none => simp [optTruthy] at hopt
    | some k =>
      by_cases hl : (onlyDigitsL k).length = 44
      · rw [accessKeyFindings_44 hopt hl] at hf
        split at hf <;> simp_all [fACCESS_KEY_DV_MISMATCH, fACCESS_KEY_OK]
      · rw [accessKeyFindings_len hopt hl] at hf
        simp_all [fACCESS_KEY_LEN]
  · rw [accessKeyFindings_notfound (by simpa using hopt)] at hf
    simp_all [fACCESS_KEY_NOT_FOUND]

/-- C10: whenever the extracted key normalises to exactly 44 digits the
check-digit computation succeeds with a digit `≤ 9`, and consequently no
report of `auditXml` ever contains the `ACCESS_KEY_DV_UNKNOWN` warning. -/
theorem claim10_dv_unknown_unreachable :
    (∀ s : String, (onlyDigitsL s).length = 44 →
        ∃ dv, calcNfeKeyDV s = some dv ∧ dv ≤ 9)
      ∧ ∀ i : AuditInput, ¬ hasCode (auditXml i) "ACCESS_KEY_DV_UNKNOWN" := by
  constructor
  · intro s hl
    have hl' : (s.data.filter Char.isDigit).length = 44 := hl
    exact ⟨_, (calcNfeKeyDVL_spec hl').1, (calcNfeKeyDVL_spec hl').2⟩
  · intro i
    cases i with
    | invalidInput issues =>
      rintro ⟨f, hf, hc⟩
      have : (auditXml (.invalidInput issues)).findings = issues.map fINPUT_INVALID := rfl
      rw [this] at hf
      obtain ⟨iss, _, rfl⟩ := List.mem_map.1 hf
      simp [fINPUT_INVALID] at hc
    | xmlParseFailure =>
      rintro ⟨f, hf, hc⟩
      have : (auditXml .xmlParseFailure).findings = [fXML_PARSE_ERROR] := rfl
      rw [this] at hf
      simp_all [fXML_PARSE_ERROR]
    | parsed p =>
      by_cases hp : p.infNFe = true
      · exact hasCode_only_access hp (fin_code_ne (by decide)) (by decide) access_no_unknown
      · rintro ⟨f, hf, hc⟩
        rw [auditParsed_findings_notinf (by simpa using hp)] at hf
        simp_all [fINFNFE_MISSING]

/-- Witness for C10 at a concrete 44-digit key. -/
theorem claim10_witness :
    (onlyDigitsL "35190000000000000000000000000000000000012343").length = 44
      ∧ ∃ dv, calcNfeKeyDV "35190000000000000000000000000000000000012343" = some dv
          ∧ dv ≤ 9 :=
  ⟨by decide, claim10_dv_unknown_unreachable.1 _ (by decide)⟩

/-- C5: for a key of exactly 44 digits the check digit is computed from the
first 43 digits by the spec's cycling modulus-11 formula; a mismatch with the
supplied 44th digit emits the error finding reporting both values, a match
emits the OK info finding, and recomputing from the 43-digit prefix gives the
same check digit. -/
theorem claim5_access_key_check_digit (p : ParsedNFe) (k : String) (hp : p.infNFe = true)
    (hk : p.accessKey = some k) (hlen : (onlyDigitsL k).length = 44) :
    ∃ dv, calcNfeKeyDVL (onlyDigitsL k) = some dv
      ∧ dv = specKeyDV (((onlyDigitsL k).take 43).map charDigit)
      ∧ (dv ≠ charDigit ((onlyDigitsL k).getD 43 '0') →
          fACCESS_KEY_DV_MISMATCH (charDigit ((onlyDigitsL k).getD 43 '0')) dv
              ∈ (auditXml (.parsed p)).findings
            ∧ hasFinding (auditXml (.parsed p)) "ACCESS_KEY_DV_MISMATCH" Severity.error)
      ∧ (dv = charDigit ((onlyDigitsL k).getD 43 '0') →
          fACCESS_KEY_OK ∈ (auditXml (.parsed p)).findings
            ∧ hasFinding (auditXml (.parsed p)) "ACCESS_KEY_OK" Severity.info)
      ∧ calcNfeKeyDVL ((onlyDigitsL k).take 43) = calcNfeKeyDVL (onlyDigitsL k) := by
  have hk0 : ¬ k = "" := by
    rintro rfl
    simp [onlyDigitsL] at hlen
  have ht : optTruthy (some k) = true := by simp [optTruthy, hk0]
  have hl' : ((onlyDigitsL k).filter Char.isDigit).length = 44 := by
    rw [filter_idem_onlyDigits]; exact hlen
  have hcalc := (calcNfeKeyDVL_spec hl').1
  rw [filter_idem_onlyDigits] at hcalc
  refine ⟨_, hcalc, rfl, ?_, ?_, ?_⟩
  · intro hne
    have hmem : fACCESS_KEY_DV_MISMATCH (charDigit ((onlyDigitsL k).getD 43 '0'))
        (specKeyDV (((onlyDigitsL k).take 43).map charDigit))
          ∈ accessKeyFindings p.accessKey := by
      rw [hk, accessKeyFindings_44 ht hlen, if_pos hne]
      simp
    have hmain : fACCESS_KEY_DV_MISMATCH (charDigit ((onlyDigitsL k).getD 43 '0'))
        (specKeyDV (((onlyDigitsL k).take 43).map charDigit))
          ∈ (auditXml (.parsed p)).findings := by
      rw [auditParsed_findings hp]
      exact mem_mainFindings.2 (Or.inr (Or.inl hmem))
    exact ⟨hmain, ⟨_, hmain, rfl, rfl⟩⟩
  · intro heq
    have hmem : fACCESS_KEY_OK ∈ accessKeyFindings p.accessKey := by
      rw [hk, accessKeyFindings_44 ht hlen, if_neg (fun hcon => hcon heq)]
      simp
    have hmain : fACCESS_KEY_OK ∈ (auditXml (.parsed p)).findings := by
      rw [auditParsed_findings hp]
      exact mem_mainFindings.2 (Or.inr (Or.inl hmem))
    exact ⟨hmain, ⟨_, hmain, rfl, rfl⟩⟩
  · exact calcNfeKeyDVL_take43 (fun c hc => List.of_mem_filter hc) hlen

/-- Witness for C5: the fixture key's 44th digit matches the recomputation,
so the OK info finding is emitted. -/
theorem claim5_witness :
    (onlyDigitsL wKey).length = 44
      ∧ fACCESS_KEY_OK ∈ (auditXml (.parsed wDoc5)).findings := by
  refine ⟨by decide, ?_⟩
  obtain ⟨dv, hdv, _, _, hok, _⟩ :=
    claim5_access_key_check_digit wDoc5 wKey (by decide) (by decide) (by decide)
  have h3 : calcNfeKeyDVL (onlyDigitsL wKey) = some 3 := by decide
  have hdv3 : dv = 3 := by
    have h := h3.symm.trans hdv
    exact (Option.some.inj h).symm
  subst hdv3
  exact (hok (by decide)).1

/-- C6: past the structural gate, a missing access key yields the
`ACCESS_KEY_NOT_FOUND` warning; a key whose digits do not number exactly 44
yields the `ACCESS_KEY_LEN` warning carrying the actual digit count and
check-digit validation is skipped — neither the mismatch error, nor the OK
info, nor the unknown warning can appear. -/
theorem claim6_access_key_guards (p : ParsedNFe) (hp : p.infNFe = true) :
    (optTruthy p.accessKey = false →
        fACCESS_KEY_NOT_FOUND ∈ (auditXml (.parsed p)).findings
          ∧ hasFinding (auditXml (.parsed p)) "ACCESS_KEY_NOT_FOUND" Severity.warning)
      ∧ ∀ k, p.accessKey = some k → ¬ k = "" → (onlyDigitsL k).length ≠ 44 →
          fACCESS_KEY_LEN (onlyDigitsL k).length ∈ (auditXml (.parsed p)).findings
            ∧ hasFinding (auditXml (.parsed p)) "ACCESS_KEY_LEN" Severity.warning
            ∧ ¬ hasCode (auditXml (.parsed p)) "ACCESS_KEY_DV_MISMATCH"
            ∧ ¬ hasCode (auditXml (.parsed p)) "ACCESS_KEY_OK"
            ∧ ¬ hasCode (auditXml (.parsed p)) "ACCESS_KEY_DV_UNKNOWN" := by
  constructor
  · intro hmiss
    have hmem : fACCESS_KEY_NOT_FOUND ∈ accessKeyFindings p.accessKey := by
      rw [accessKeyFindings_notfound hmiss]
      simp
    have hmain : fACCESS_KEY_NOT_FOUND ∈ (auditXml (.parsed p)).findings := by
      rw [auditParsed_findings hp]
      exact mem_mainFindings.2 (Or.inr (Or.inl hmem))
    exact ⟨hmain, ⟨_, hmain, rfl, rfl⟩⟩
  · intro k hk hk0 hl
    have ht : optTruthy (some k) = true := by simp [optTruthy, hk0]
    have hsingle : accessKeyFindings p.accessKey = [fACCESS_KEY_LEN (onlyDigitsL k).length] := by
      rw [hk]; exact accessKeyFindings_len ht hl
    have hmem : fACCESS_KEY_LEN (onlyDigitsL k).length ∈ accessKeyFindings p.accessKey := by
      rw [hsingle]; simp
    have hmain : fACCESS_KEY_LEN (onlyDigitsL k).length ∈ (auditXml (.parsed p)).findings := by
      rw [auditParsed_findings hp]
      exact mem_mainFindings.2 (Or.inr (Or.inl hmem))
    have hacc : ∀ c, c ≠ "ACCESS_KEY_LEN" →
        ∀ f ∈ accessKeyFindings p.accessKey, f.code ≠ c := by
      intro c hc f hf
      rw [hsingle] at hf
      simp at hf
      subst hf
      simpa [fACCESS_KEY_LEN] using fun h => hc h.symm
    refine ⟨hmain, ⟨_, hmain, rfl, rfl⟩, ?_, ?_, ?_⟩
    · exact hasCode_only_access hp (fin_code_ne (by decide)) (by decide)
        (hacc _ (by decide))
    · exact hasCode_only_access hp (fin_code_ne (by decide)) (by decide)
        (hacc _ (by decide))
    · exact hasCode_only_access hp (fin_code_ne (by decide)) (by decide)
        (hacc _ (by decide))

/-! ### Financial localisation lemmas -/

/-- A financial finding is the totals-missing warning or comes from one of
the seven chunks. -/
lemma fin_mem_cases {det : List Item} {totals : Option Totals} {f : Finding}
    (hf : f ∈ financialFindings det totals) :
    (totals = none ∧ f = fTOTALS_MISSING)
      ∨ ∃ t, totals = some t
          ∧ (f ∈ vProdMissingChunk det ∨ f ∈ vProdChunk det t ∨ f ∈ vDescChunk det t
              ∨ f ∈ vFreteChunk det t ∨ f ∈ vSegChunk det t ∨ f ∈ vOutroChunk det t
              ∨ f ∈ vNFChunk t) := by
  cases totals with
  | none =>
    left
    refine ⟨rfl, ?_⟩
    simpa [financialFindings] using hf
  | some t =>
    right
    refine ⟨t, rfl, ?_⟩
    simpa [financialFindings, List.mem_append, or_assoc] using hf

lemma fin_mem_of_chunk {det : List Item} {t : Totals} {f : Finding}
    (h : f ∈ vProdMissingChunk det ∨ f ∈ vProdChunk det t ∨ f ∈ vDescChunk det t
      ∨ f ∈ vFreteChunk det t ∨ f ∈ vSegChunk det t ∨ f ∈ vOutroChunk det t
      ∨ f ∈ vNFChunk t) :
    f ∈ financialFindings det (some t) := by
  simp only [financialFindings, List.mem_append, or_assoc]
  exact h

/-- Localisation: a finding code that no non-financial group can emit occurs
in a post-gate report exactly when the financial group emits it. -/
lemma hasFinding_financial {p : ParsedNFe} {c : String} {sev : Severity} (hp : p.infNFe = true)
    (hother : c ∉ (["ITEMS_EMPTY", "IDE_MISSING", "EMIT_MISSING", "DEST_MISSING",
      "EMIT_DOC_INVALID", "EMIT_DOC_OK", "EMIT_DOC_MISSING", "DEST_DOC_INVALID",
      "DEST_DOC_OK", "DEST_DOC_MISSING", "EMIT_UF_MISSING", "DEST_UF_MISSING",
      "EMIT_CEP_INVALID", "DEST_CEP_INVALID", "ITEM_QCOM_ZERO", "ITEM_VUN_ZERO",
      "CFOP_UF_MISMATCH", "CFOP_MISSING", "NCM_MISSING", "NCM_INVALID_LEN"] : List String))
    (haccess : c ∉ (["ACCESS_KEY_LEN", "ACCESS_KEY_DV_UNKNOWN", "ACCESS_KEY_DV_MISMATCH",
      "ACCESS_KEY_OK", "ACCESS_KEY_NOT_FOUND"] : List String)) :
    hasFinding (auditXml (.parsed p)) c sev
      ↔ ∃ f ∈ financialFindings p.det p.totals, f.code = c ∧ f.severity = sev := by
  constructor
  · rintro ⟨f, hf, hcode, hsev⟩
    rcases code_resolve hp hf with h | h | h | h | h | h | h | h | h | h | h | h | h | h | h
      | h | h | h | h | h | h | h
    · exact absurd hcode (access_code_ne haccess f h)
    · exact ⟨f, h, hcode, hsev⟩
    all_goals exact (hother (by simp [hcode.symm.trans h])).elim
  · rintro ⟨f, hf, hcode, hsev⟩
    refine ⟨f, ?_, hcode, hsev⟩
    rw [auditParsed_findings hp]
    exact mem_mainFindings.2
      (Or.inr (Or.inr (Or.inr (Or.inr (Or.inr (Or.inr (Or.inl hf)))))))

lemma hasCode_financial {p : ParsedNFe} {c : String} (hp : p.infNFe = true)
    (hother : c ∉ (["ITEMS_EMPTY", "IDE_MISSING", "EMIT_MISSING", "DEST_MISSING",
      "EMIT_DOC_INVALID", "EMIT_DOC_OK", "EMIT_DOC_MISSING", "DEST_DOC_INVALID",
      "DEST_DOC_OK", "DEST_DOC_MISSING", "EMIT_UF_MISSING", "DEST_UF_MISSING",
      "EMIT_CEP_INVALID", "DEST_CEP_INVALID", "ITEM_QCOM_ZERO", "ITEM_VUN_ZERO",
      "CFOP_UF_MISMATCH", "CFOP_MISSING", "NCM_MISSING", "NCM_INVALID_LEN"] : List String))
    (haccess : c ∉ (["ACCESS_KEY_LEN", "ACCESS_KEY_DV_UNKNOWN", "ACCESS_KEY_DV_MISMATCH",
      "ACCESS_KEY_OK", "ACCESS_KEY_NOT_FOUND"] : List String)) :
    hasCode (auditXml (.parsed p)) c
      ↔ ∃ f ∈ financialFindings p.det p.totals, f.code = c := by
  constructor
  · rintro ⟨f, hf, hcode⟩
    rcases code_resolve hp hf with h | h | h | h | h | h | h | h | h | h | h | h | h | h | h
      | h | h | h | h | h | h | h
    · exact absurd hcode (access_code_ne haccess f h)
    · exact ⟨f, h, hcode⟩
    all_goals exact (hother (by simp [hcode.symm.trans h])).elim
  · rintro ⟨f, hf, hcode⟩
    refine ⟨f, ?_, hcode⟩
    rw [auditParsed_findings hp]
    exact mem_mainFindings.2
      (Or.inr (Or.inr (Or.inr (Or.inr (Or.inr (Or.inr (Or.inl hf)))))))

/-! ### Chunk characterisations -/

lemma vProdMissingChunk_iff {det : List Item} :
    (∃ f ∈ vProdMissingChunk det,
        f.code = "ITEM_VPROD_MISSING" ∧ f.severity = Severity.warning)
      ↔ 0 < vProdMissingCount det := by
  simp only [vProdMissingChunk]
  split_ifs with h <;> simp_all [fITEM_VPROD_MISSING]

lemma vDescChunk_mis_iff {det : List Item} {t : Totals} :
    (∃ f ∈ vDescChunk det t,
        f.code = "TOTAL_VDESC_MISMATCH" ∧ f.severity = Severity.warning)
      ↔ ∃ tv, t.vDesc = some tv ∧ 0 < sumVDesc det
          ∧ 1 / 100 < jsAbs (round2 (sumVDesc det - tv)) := by
  cases htv : t.vDesc with
  | none => simp [vDescChunk, htv]
  | some tv =>
    simp only [vDescChunk, htv]
    split_ifs with hpos hgt <;> simp_all [fTOTAL_VDESC_MISMATCH, fTOTAL_VDESC_OK]

lemma vDescChunk_ok_iff {det : List Item} {t : Totals} :
    (∃ f ∈ vDescChunk det t, f.code = "TOTAL_VDESC_OK" ∧ f.severity = Severity.info)
      ↔ ∃ tv, t.vDesc = some tv ∧ 0 < sumVDesc det
          ∧ ¬ 1 / 100 < jsAbs (round2 (sumVDesc det - tv)) := by
  cases htv : t.vDesc with
  | none => simp [vDescChunk, htv]
  | some tv =>
    simp only [vDescChunk, htv]
    split_ifs with hpos hgt <;> simp_all [fTOTAL_VDESC_MISMATCH, fTOTAL_VDESC_OK]

lemma vFreteChunk_mis_iff {det : List Item} {t : Totals} :
    (∃ f ∈ vFreteChunk det t,
        f.code = "TOTAL_VFRETE_MISMATCH" ∧ f.severity = Severity.warning)
      ↔ ∃ tv, t.vFrete = some tv ∧ 0 < sumVFrete det
          ∧ 1 / 100 < jsAbs (round2 (sumVFrete det - tv)) := by
  cases htv : t.vFrete with
  | none => simp [vFreteChunk, htv]
  | some tv =>
    simp only [vFreteChunk, htv]
    split_ifs with hpos hgt <;> simp_all [fTOTAL_VFRETE_MISMATCH]

lemma vSegChunk_mis_iff {det : List Item} {t : Totals} :
    (∃ f ∈ vSegChunk det t,
        f.code = "TOTAL_VSEG_MISMATCH" ∧ f.severity = Severity.warning)
      ↔ ∃ tv, t.vSeg = some tv ∧ 0 < sumVSeg det
          ∧ 1 / 100 < jsAbs (round2 (sumVSeg det - tv)) := by
  cases htv : t.vSeg with
  | none => simp [vSegChunk, htv]
  | some tv =>
    simp only [vSegChunk, htv]
    split_ifs with hpos hgt <;> simp_all [fTOTAL_VSEG_MISMATCH]

lemma vOutroChunk_mis_iff {det : List Item} {t : Totals} :
    (∃ f ∈ vOutroChunk det t,
        f.code = "TOTAL_VOUTRO_MISMATCH" ∧ f.severity = Severity.warning)
      ↔ ∃ tv, t.vOutro = some tv ∧ 0 < sumVOutro det
          ∧ 1 / 100 < jsAbs (round2 (sumVOutro det - tv)) := by
  cases htv : t.vOutro with
  | none => simp [vOutroChunk, htv]
  | some tv =>
    simp only [vOutroChunk, htv]
    split_ifs with hpos hgt <;> simp_all [fTOTAL_VOUTRO_MISMATCH]

/-- No chunk other than `vDescChunk` can carry `TOTAL_VDESC_MISMATCH`; and
similar eliminations, bundled per target chunk. -/
lemma finMem_vdesc_mis {det : List Item} {totals : Option Totals} :
    (∃ f ∈ financialFindings det totals,
        f.code = "TOTAL_VDESC_MISMATCH" ∧ f.severity = Severity.warning)
      ↔ ∃ t, totals = some t ∧ ∃ tv, t.vDesc = some tv ∧ 0 < sumVDesc det
          ∧ 1 / 100 < jsAbs (round2 (sumVDesc det - tv)) := by
  constructor
  · rintro ⟨f, hf, hc, hs⟩
    rcases fin_mem_cases hf with ⟨rfl, rfl⟩ | ⟨t, rfl, hmem⟩
    · simp [fTOTALS_MISSING] at hc
    · refine ⟨t, rfl, ?_⟩
      apply vDescChunk_mis_iff.1
      rcases hmem with h | h | h | h | h | h | h
      · exact absurd hc (by simp [code_vProdMissingChunk h])
      · rcases code_vProdChunk h with e | e <;> exact absurd hc (by simp [e])
      · exact ⟨f, h, hc, hs⟩
      · exact absurd hc (by simp [code_vFreteChunk h])
      · exact absurd hc (by simp [code_vSegChunk h])
      · exact absurd hc (by simp [code_vOutroChunk h])
      · rcases code_vNFChunk h with e | e <;> exact absurd hc (by simp [e])
  · rintro ⟨t, rfl, hcon⟩
    obtain ⟨f, hf, hc, hs⟩ := vDescChunk_mis_iff.2 hcon
    exact ⟨f, fin_mem_of_chunk (Or.inr (Or.inr (Or.inl hf))), hc, hs⟩

lemma finMem_vdesc_ok {det : List Item} {totals : Option Totals} :
    (∃ f ∈ financialFindings det totals,
        f.code = "TOTAL_VDESC_OK" ∧ f.severity = Severity.info)
      ↔ ∃ t, totals = some t ∧ ∃ tv, t.vDesc = some tv ∧ 0 < sumVDesc det
          ∧ ¬ 1 / 100 < jsAbs (round2 (sumVDesc det - tv)) := by
  constructor
  · rintro ⟨f, hf, hc, hs⟩
    rcases fin_mem_cases hf with ⟨rfl, rfl⟩ | ⟨t, rfl, hmem⟩
    · simp [fTOTALS_MISSING] at hc
    · refine ⟨t, rfl, ?_⟩
      apply vDescChunk_ok_iff.1
      rcases hmem with h | h | h | h | h | h | h
      · exact absurd hc (by simp [code_vProdMissingChunk h])
      · rcases code_vProdChunk h with e | e <;> exact absurd hc (by simp [e])
      · exact ⟨f, h, hc, hs⟩
      · exact absurd hc (by simp [code_vFreteChunk h])
      · exact absurd hc (by simp [code_vSegChunk h])
      · exact absurd hc (by simp [code_vOutroChunk h])
      · rcases code_vNFChunk h with e | e <;> exact absurd hc (by simp [e])
  · rintro ⟨t, rfl, hcon⟩
    obtain ⟨f, hf, hc, hs⟩ := vDescChunk_ok_iff.2 hcon
    exact ⟨f, fin_mem_of_chunk (Or.inr (Or.inr (Or.inl hf))), hc, hs⟩

lemma finMem_vfrete_mis {det : List Item} {totals : Option Totals} :
    (∃ f ∈ financialFindings det totals,
        f.code = "TOTAL_VFRETE_MISMATCH" ∧ f.severity = Severity.warning)
      ↔ ∃ t, totals = some t ∧ ∃ tv, t.vFrete = some tv ∧ 0 < sumVFrete det
          ∧ 1 / 100 < jsAbs (round2 (sumVFrete det - tv)) := by
  constructor
  · rintro ⟨f, hf, hc, hs⟩
    rcases fin_mem_cases hf with ⟨rfl, rfl⟩ | ⟨t, rfl, hmem⟩
    · simp [fTOTALS_MISSING] at hc
    · refine ⟨t, rfl, ?_⟩
      apply vFreteChunk_mis_iff.1
      rcases hmem with h | h | h | h | h | h | h
      · exact absurd hc (by simp [code_vProdMissingChunk h])
      · rcases code_vProdChunk h with e | e <;> exact absurd hc (by simp [e])
      · rcases code_vDescChunk h with e | e <;> exact absurd hc (by simp [e])
      · exact ⟨f, h, hc, hs⟩
      · exact absurd hc (by simp [code_vSegChunk h])
      · exact absurd hc (by simp [code_vOutroChunk h])
      · rcases code_vNFChunk h with e | e <;> exact absurd hc (by simp [e])
  · rintro ⟨t, rfl, hcon⟩
    obtain ⟨f, hf, hc, hs⟩ := vFreteChunk_mis_iff.2 hcon
    exact ⟨f, fin_mem_of_chunk (Or.inr (Or.inr (Or.inr (Or.inl hf)))), hc, hs⟩

lemma finMem_vseg_mis {det : List Item} {totals : Option Totals} :
    (∃ f ∈ financialFindings det totals,
        f.code = "TOTAL_VSEG_MISMATCH" ∧ f.severity = Severity.warning)
      ↔ ∃ t, totals = some t ∧ ∃ tv, t.vSeg = some tv ∧ 0 < sumVSeg det
          ∧ 1 / 100 < jsAbs (round2 (sumVSeg det - tv)) := by
  constructor
  · rintro ⟨f, hf, hc, hs⟩
    rcases fin_mem_cases hf with ⟨rfl, rfl⟩ | ⟨t, rfl, hmem⟩
    · simp [fTOTALS_MISSING] at hc
    · refine ⟨t, rfl, ?_⟩
      apply vSegChunk_mis_iff.1
      rcases hmem with h | h | h | h | h | h | h
      · exact absurd hc (by simp [code_vProdMissingChunk h])
      · rcases code_vProdChunk h with e | e <;> exact absurd hc (by simp [e])
      · rcases code_vDescChunk h with e | e <;> exact absurd hc (by simp [e])
      · exact absurd hc (by simp [code_vFreteChunk h])
      · exact ⟨f, h, hc, hs⟩
      · exact absurd hc (by simp [code_vOutroChunk h])
      · rcases code_vNFChunk h with e | e <;> exact absurd hc (by simp [e])
  · rintro ⟨t, rfl, hcon⟩
    obtain ⟨f, hf, hc, hs⟩ := vSegChunk_mis_iff.2 hcon
    exact ⟨f, fin_mem_of_chunk (Or.inr (Or.inr (Or.inr (Or.inr (Or.inl hf))))), hc, hs⟩

lemma finMem_voutro_mis {det : List Item} {totals : Option Totals} :
    (∃ f ∈ financialFindings det totals,
        f.code = "TOTAL_VOUTRO_MISMATCH" ∧ f.severity = Severity.warning)
      ↔ ∃ t, totals = some t ∧ ∃ tv, t.vOutro = some tv ∧ 0 < sumVOutro det
          ∧ 1 / 100 < jsAbs (round2 (sumVOutro det - tv)) := by
  constructor
  · rintro ⟨f, hf, hc, hs⟩
    rcases fin_mem_cases hf with ⟨rfl, rfl⟩ | ⟨t, rfl, hmem⟩
    · simp [fTOTALS_MISSING] at hc
    · refine ⟨t, rfl, ?_⟩
      apply vOutroChunk_mis_iff.1
      rcases hmem with h | h | h | h | h | h | h
      · exact absurd hc (by simp [code_vProdMissingChunk h])
      · rcases code_vProdChunk h with e | e <;> exact absurd hc (by simp [e])
      · rcases code_vDescChunk h with e | e <;> exact absurd hc (by simp [e])
      · exact absurd hc (by simp [code_vFreteChunk h])
      · exact absurd hc (by simp [code_vSegChunk h])
      · exact ⟨f, h, hc, hs⟩
      · rcases code_vNFChunk h with e | e <;> exact absurd hc (by simp [e])
  · rintro ⟨t, rfl, hcon⟩
    obtain ⟨f, hf, hc, hs⟩ := vOutroChunk_mis_iff.2 hcon
    exact ⟨f, fin_mem_of_chunk (Or.inr (Or.inr (Or.inr (Or.inr (Or.inr (Or.inl hf)))))),
      hc, hs⟩

lemma finMem_vprod_missing {det : List Item} {totals : Option Totals} :
    (∃ f ∈ financialFindings det totals,
        f.code = "ITEM_VPROD_MISSING" ∧ f.severity = Severity.warning)
      ↔ ∃ t, totals = some t ∧ 0 < vProdMissingCount det := by
  constructor
  · rintro ⟨f, hf, hc, hs⟩
    rcases fin_mem_cases hf with ⟨rfl, rfl⟩ | ⟨t, rfl, hmem⟩
    · simp [fTOTALS_MISSING] at hc
    · refine ⟨t, rfl, ?_⟩
      apply vProdMissingChunk_iff.1
      rcases hmem with h | h | h | h | h | h | h
      · exact ⟨f, h, hc, hs⟩
      · rcases code_vProdChunk h with e | e <;> exact absurd hc (by simp [e])
      · rcases code_vDescChunk h with e | e <;> exact absurd hc (by simp [e])
      · exact absurd hc (by simp [code_vFreteChunk h])
      · exact absurd hc (by simp [code_vSegChunk h])
      · exact absurd hc (by simp [code_vOutroChunk h])
      · rcases code_vNFChunk h with e | e <;> exact absurd hc (by simp [e])
  · rintro ⟨t, rfl, hcon⟩
    obtain ⟨f, hf, hc, hs⟩ := vProdMissingChunk_iff.2 hcon
    exact ⟨f, fin_mem_of_chunk (Or.inl hf), hc, hs⟩

lemma finMem_totals_missing {det : List Item} {totals : Option Totals} :
    (∃ f ∈ financialFindings det totals,
        f.code = "TOTALS_MISSING" ∧ f.severity = Severity.warning)
      ↔ totals = none := by
  constructor
  · rintro ⟨f, hf, hc, hs⟩
    rcases fin_mem_cases hf with ⟨rfl, rfl⟩ | ⟨t, rfl, hmem⟩
    · rfl
    · exfalso
      rcases hmem with h | h | h | h | h | h | h
      · exact absurd hc (by simp [code_vProdMissingChunk h])
      · rcases code_vProdChunk h with e | e <;> exact absurd hc (by simp [e])
      · rcases code_vDescChunk h with e | e <;> exact absurd hc (by simp [e])
      · exact absurd hc (by simp [code_vFreteChunk h])
      · exact absurd hc (by simp [code_vSegChunk h])
      · exact absurd hc (by simp [code_vOutroChunk h])
      · rcases code_vNFChunk h with e | e <;> exact absurd hc (by simp [e])
  · rintro rfl
    exact ⟨fTOTALS_MISSING, by simp [financialFindings], rfl, rfl⟩

/-- With the totals block absent the financial group is the single
`TOTALS_MISSING` warning, so no other financial code can appear. -/
lemma no_fin_code_when_totals_none {p : ParsedNFe} {c : String} (hp : p.infNFe = true)
    (hn : p.totals = none)
    (hother : c ∉ (["ITEMS_EMPTY", "IDE_MISSING", "EMIT_MISSING", "DEST_MISSING",
      "EMIT_DOC_INVALID", "EMIT_DOC_OK", "EMIT_DOC_MISSING", "DEST_DOC_INVALID",
      "DEST_DOC_OK", "DEST_DOC_MISSING", "EMIT_UF_MISSING", "DEST_UF_MISSING",
      "EMIT_CEP_INVALID", "DEST_CEP_INVALID", "ITEM_QCOM_ZERO", "ITEM_VUN_ZERO",
      "CFOP_UF_MISMATCH", "CFOP_MISSING", "NCM_MISSING", "NCM_INVALID_LEN"] : List String))
    (haccess : c ∉ (["ACCESS_KEY_LEN", "ACCESS_KEY_DV_UNKNOWN", "ACCESS_KEY_DV_MISMATCH",
      "ACCESS_KEY_OK", "ACCESS_KEY_NOT_FOUND"] : List String))
    (hcne : ¬ c = "TOTALS_MISSING") :
    ¬ hasCode (auditXml (.parsed p)) c := by
  intro h
  obtain ⟨f, hf, hc⟩ := (hasCode_financial hp hother haccess).1 h
  rw [hn] at hf
  simp only [financialFindings, List.mem_singleton] at hf
  subst hf
  simp only [fTOTALS_MISSING] at hc
  exact hcne hc.symm

/-! ### C3: the four optional monetary-field comparisons -/

/-- C3 counterexample: when the per-item discount sum (5) is positive and
matches the declared discount total (5), `auditXml` does emit a positive
`TOTAL_VDESC_OK` info finding — refuting the claim that no OK finding is
emitted for any of the four optional monetary fields. -/
theorem claim3_counterexample :
    sumVDesc cDoc3.det = 5
      ∧ totVDesc cDoc3.totals = some 5
      ∧ hasFinding (auditXml (.parsed cDoc3)) "TOTAL_VDESC_OK" Severity.info := by
  decide

/-- C3 (amended): past the gate, each of the discount/freight/insurance/
other-expenses comparisons warns exactly when the declared total is present,
the item-level sum is strictly positive, and the rounded absolute difference
exceeds 0.01; for freight/insurance/other-expenses no OK finding is ever
emitted, while for discount a positive matching comparison emits the
`TOTAL_VDESC_OK` info finding. -/
theorem claim3_amended_four_fields (p : ParsedNFe) (hp : p.infNFe = true) :
    (hasFinding (auditXml (.parsed p)) "TOTAL_VDESC_MISMATCH" Severity.warning
        ↔ ∃ tv, totVDesc p.totals = some tv ∧ 0 < sumVDesc p.det
            ∧ 1 / 100 < jsAbs (round2 (sumVDesc p.det - tv)))
      ∧ (hasFinding (auditXml (.parsed p)) "TOTAL_VFRETE_MISMATCH" Severity.warning
        ↔ ∃ tv, totVFrete p.totals = some tv ∧ 0 < sumVFrete p.det
            ∧ 1 / 100 < jsAbs (round2 (sumVFrete p.det - tv)))
      ∧ (hasFinding (auditXml (.parsed p)) "TOTAL_VSEG_MISMATCH" Severity.warning
        ↔ ∃ tv, totVSeg p.totals = some tv ∧ 0 < sumVSeg p.det
            ∧ 1 / 100 < jsAbs (round2 (sumVSeg p.det - tv)))
      ∧ (hasFinding (auditXml (.parsed p)) "TOTAL_VOUTRO_MISMATCH" Severity.warning
        ↔ ∃ tv, totVOutro p.totals = some tv ∧ 0 < sumVOutro p.det
            ∧ 1 / 100 < jsAbs (round2 (sumVOutro p.det - tv)))
      ∧ (hasFinding (auditXml (.parsed p)) "TOTAL_VDESC_OK" Severity.info
        ↔ ∃ tv, totVDesc p.totals = some tv ∧ 0 < sumVDesc p.det
            ∧ ¬ 1 / 100 < jsAbs (round2 (sumVDesc p.det - tv)))
      ∧ ¬ hasCode (auditXml (.parsed p)) "TOTAL_VFRETE_OK"
      ∧ ¬ hasCode (auditXml (.parsed p)) "TOTAL_VSEG_OK"
      ∧ ¬ hasCode (auditXml (.parsed p)) "TOTAL_VOUTRO_OK" := by
  refine ⟨?_, ?_, ?_, ?_, ?_, ?_, ?_, ?_⟩
  · rw [hasFinding_financial hp (by decide) (by decide), finMem_vdesc_mis]
    cases hpt : p.totals <;> simp [totVDesc, hpt]
  · rw [hasFinding_financial hp (by decide) (by decide), finMem_vfrete_mis]
    cases hpt : p.totals <;> simp [totVFrete, hpt]
  · rw [hasFinding_financial hp (by decide) (by decide), finMem_vseg_mis]
    cases hpt : p.totals <;> simp [totVSeg, hpt]
  · rw [hasFinding_financial hp (by decide) (by decide), finMem_voutro_mis]
    cases hpt : p.totals <;> simp [totVOutro, hpt]
  · rw [hasFinding_financial hp (by decide) (by decide), finMem_vdesc_ok]
    cases hpt : p.totals <;> simp [totVDesc, hpt]
  · intro h
    obtain ⟨f, hf, hc⟩ := (hasCode_financial hp (by decide) (by decide)).1 h
    exact fin_code_ne (by decide) f hf hc
  · intro h
    obtain ⟨f, hf, hc⟩ := (hasCode_financial hp (by decide) (by decide)).1 h
    exact fin_code_ne (by decide) f hf hc
  · intro h
    obtain ⟨f, hf, hc⟩ := (hasCode_financial hp (by decide) (by decide)).1 h
    exact fin_code_ne (by decide) f hf hc

/-- Witness for C3 (amended) at the concrete matching-discount document. -/
theorem claim3_witness :
    (hasFinding (auditXml (.parsed cDoc3)) "TOTAL_VDESC_OK" Severity.info
        ↔ ∃ tv, totVDesc cDoc3.totals = some tv ∧ 0 < sumVDesc cDoc3.det
            ∧ ¬ 1 / 100 < jsAbs (round2 (sumVDesc cDoc3.det - tv)))
      ∧ ¬ hasCode (auditXml (.parsed cDoc3)) "TOTAL_VFRETE_OK" :=
  ⟨(claim3_amended_four_fields cDoc3 (by decide)).2.2.2.2.1,
    (claim3_amended_four_fields cDoc3 (by decide)).2.2.2.2.2.1⟩

/-! ### C7: missing product values and the totals gate -/

/-- C7 counterexample: one item lacks its product value, yet no
`ITEM_VPROD_MISSING` warning is emitted because the totals block is absent —
the count warning lives inside the `else` of the totals check, so "emit a
warning when the count is positive" fails as an unconditional statement. -/
theorem claim7_counterexample :
    0 < vProdMissingCount cDoc7.det
      ∧ ¬ hasCode (auditXml (.parsed cDoc7)) "ITEM_VPROD_MISSING"
      ∧ hasFinding (auditXml (.parsed cDoc7)) "TOTALS_MISSING" Severity.warning := by
  decide

/-- C7 (amended): past the gate, the `ITEM_VPROD_MISSING` warning carrying
the count appears exactly when the totals block is present and the count is
positive; an absent totals block yields the `TOTALS_MISSING` warning and
skips every sum comparison (and the count warning itself). -/
theorem claim7_amended_totals_gate (p : ParsedNFe) (hp : p.infNFe = true) :
    (hasFinding (auditXml (.parsed p)) "ITEM_VPROD_MISSING" Severity.warning
        ↔ ¬ p.totals = none ∧ 0 < vProdMissingCount p.det)
      ∧ (hasFinding (auditXml (.parsed p)) "TOTALS_MISSING" Severity.warning
        ↔ p.totals = none)
      ∧ (p.totals = none →
          ¬ hasCode (auditXml (.parsed p)) "TOTAL_VPROD_MISMATCH"
            ∧ ¬ hasCode (auditXml (.parsed p)) "TOTAL_VPROD_OK"
            ∧ ¬ hasCode (auditXml (.parsed p)) "TOTAL_VDESC_MISMATCH"
            ∧ ¬ hasCode (auditXml (.parsed p)) "TOTAL_VDESC_OK"
            ∧ ¬ hasCode (auditXml (.parsed p)) "TOTAL_VFRETE_MISMATCH"
            ∧ ¬ hasCode (auditXml (.parsed p)) "TOTAL_VSEG_MISMATCH"
            ∧ ¬ hasCode (auditXml (.parsed p)) "TOTAL_VOUTRO_MISMATCH"
            ∧ ¬ hasCode (auditXml (.parsed p)) "TOTAL_VNF_SUSPECT"
            ∧ ¬ hasCode (auditXml (.parsed p)) "TOTAL_VNF_OK"
            ∧ ¬ hasCode (auditXml (.parsed p)) "ITEM_VPROD_MISSING") := by
  refine ⟨?_, ?_, ?_⟩
  · rw [hasFinding_financial hp (by decide) (by decide), finMem_vprod_missing]
    cases hpt : p.totals <;> simp [hpt]
  · rw [hasFinding_financial hp (by decide) (by decide), finMem_totals_missing]
  · intro hn
    exact ⟨no_fin_code_when_totals_none hp hn (by decide) (by decide) (by decide),
      no_fin_code_when_totals_none hp hn (by decide) (by decide) (by decide),
      no_fin_code_when_totals_none hp hn (by decide) (by decide) (by decide),
      no_fin_code_when_totals_none hp hn (by decide) (by decide) (by decide),
      no_fin_code_when_totals_none hp hn (by decide) (by decide) (by decide),
      no_fin_code_when_totals_none hp hn (by decide) (by decide) (by decide),
      no_fin_code_when_totals_none hp hn (by decide) (by decide) (by decide),
      no_fin_code_when_totals_none hp hn (by decide) (by decide) (by decide),
      no_fin_code_when_totals_none hp hn (by decide) (by decide) (by decide),
      no_fin_code_when_totals_none hp hn (by decide) (by decide) (by decide)⟩

/-- Witness for C7 (amended): with totals present and one item lacking its
product value the count warning is emitted. -/
theorem claim7_witness :
    hasFinding (auditXml (.parsed wDoc7)) "ITEM_VPROD_MISSING" Severity.warning :=
  ((claim7_amended_totals_gate wDoc7 (by decide)).1).2 ⟨by decide, by decide⟩

/-- Witness for C6: a 40-digit truncated key gets the length warning and can
never get the mismatch error. -/
theorem claim6_witness :
    (onlyDigitsL wKey40).length = 40
      ∧ fACCESS_KEY_LEN 40 ∈ (auditXml (.parsed wDoc6)).findings
      ∧ ¬ hasCode (auditXml (.parsed wDoc6)) "ACCESS_KEY_DV_MISMATCH" := by
  have h := (claim6_access_key_guards wDoc6 (by decide)).2 wKey40 (by decide) (by decide)
    (by decide)
  refine ⟨by decide, ?_, h.2.2.1⟩
  have h40 : (onlyDigitsL wKey40).length = 40 := by decide
  have := h.1
  rw [h40] at this
  exact this

/-! ### C4: the CPF validator -/

/-- C4 counterexample: `52998224725` is accepted by the validator, but the
claim's weights-`9..1` algorithm computes 6 for the first check digit while
the value's 10th digit is 2 — so acceptance is not equivalent to matching
the claim's algorithm. -/
theorem claim4_counterexample :
    isValidCPF "52998224725" = true
      ∧ (onlyDigits "52998224725").getD 9 0 = 2
      ∧ cpfClaimDigit1 (onlyDigits "52998224725") = 6
      ∧ ¬ ((onlyDigits "52998224725").getD 9 0
            = cpfClaimDigit1 (onlyDigits "52998224725")) := by
  decide

/-- The source's first-digit loop (`calc(9)`, weight `baseLen + 1 - i`) is
the amended spec's weights `10..2`. -/
lemma cpfCheckDigit9_eq (ds : List Nat) : cpfCheckDigit ds 9 = cpfSpecDigit1 ds := by
  have hr : List.range 9 = [0, 1, 2, 3, 4, 5, 6, 7, 8] := by decide
  simp only [cpfCheckDigit, cpfSpecDigit1, mod11Rule, hr, List.foldl]
  norm_num

/-- The source's second-digit loop (weights `11 - i`) is the amended spec's
weights `11..2`. -/
lemma cpfCheckDigit10_eq (ds : List Nat) : cpfCheckDigit ds 10 = cpfSpecDigit2 ds := by
  have hr : List.range 10 = [0, 1, 2, 3, 4, 5, 6, 7, 8, 9] := by decide
  simp only [cpfCheckDigit, cpfSpecDigit2, mod11Rule, hr, List.foldl]
  norm_num

/-- C4 (amended): an 11-digit value is accepted exactly when it is not a
single repeated digit and its two trailing digits equal the check digits
computed with weights `10..2` (first digit) and `11..2` (second digit) under
the modulus-11 rule. -/
theorem claim4_amended_cpf (s : String) (h : (onlyDigits s).length = 11) :
    isValidCPF s = true
      ↔ repAllN (onlyDigits s) = false
        ∧ (onlyDigits s).getD 9 0 = cpfSpecDigit1 (onlyDigits s)
        ∧ (onlyDigits s).getD 10 0 = cpfSpecDigit2 (onlyDigits s) := by
  simp only [isValidCPF]
  rw [if_neg (by simp [h])]
  by_cases hrep : repAllN (onlyDigits s)
  · simp [hrep]
  · simp [hrep, cpfCheckDigit9_eq, cpfCheckDigit10_eq]

/-- Witness for C4 (amended) at a concrete valid CPF. -/
theorem claim4_witness :
    (onlyDigits "52998224725").length = 11
      ∧ (isValidCPF "52998224725" = true
          ↔ repAllN (onlyDigits "52998224725") = false
            ∧ (onlyDigits "52998224725").getD 9 0 = cpfSpecDigit1 (onlyDigits "52998224725")
            ∧ (onlyDigits "52998224725").getD 10 0
                = cpfSpecDigit2 (onlyDigits "52998224725")) :=
  ⟨by decide, claim4_amended_cpf _ (by decide)⟩

end NFe
